import Mathlib

/-!
Verification of the resource-dependency remapping engine of
`dfcx/dfcx_functions.py` (class `DialogflowFunctions`).

The embedding models the proto-plus resource objects (Page, TransitionRoute,
EventHandler, FormParameter, RouteGroup) as Lean structures.  Proto-plus field
presence (`'field' in obj`) collapses as follows, observationally equivalent
for every code path embedded here:
  * for a string field, presence means the string is non-empty;
  * for a repeated field, presence means the list is non-empty (and iterating
    an absent repeated field is a no-op, so the guard can be dropped);
  * for a singular message field (`entry_fulfillment`, `trigger_fulfillment`,
    `fill_behavior`, `form`, `initial_prompt_fulfillment`), accessing an unset
    field yields the all-default message, and every guarded action in the code
    is conditioned on a nested string/repeated field being set, so the message
    wrapper is inlined and the guard is expressed on the nested field.

Python dicts (the `get_*_map` results) are modelled as association lists with
first-match lookup (`mlookup`); a `KeyError` is modelled as `Except.error k`
carrying the missing key.  The RPC listing collaborator for route groups is a
function parameter.  In-place mutation of the deep copy is modelled by pure
record updates on the copied value; a store-passing wrapper
(`convert_page_dependencies_st`) makes the deep-copy-then-mutate discipline of
the Python explicit for the frame property.
-/

/-- One string-keyed, string-valued map, as produced by the
`get_intents_map` / `get_entities_map` / `get_webhooks_map` / `get_flows_map` /
`get_pages_map` / `get_route_groups_map` helpers. -/
abbrev Smap := List (String × String)

/-- Python dict lookup `m[k]` (first binding wins; the builders produce
duplicate-free key sets). -/
def mlookup : Smap → String → Option String
  | [], _ => none
  | (k', v) :: m, k => if k = k' then some v else mlookup m k

/-- Python dict indexing `m[k]`: the value, or a `KeyError` naming `k`. -/
def mget (m : Smap) (k : String) : Except String String :=
  match mlookup m k with
  | some v => .ok v
  | none => .error k

/-- Auxiliary for `strSplit`: scan the character list, cutting at `sep`. -/
def strSplitAux (sep : Char) : List Char → List Char → List String
  | [], cur => [String.mk cur.reverse]
  | c :: cs, cur =>
    if c = sep then String.mk cur.reverse :: strSplitAux sep cs []
    else strSplitAux sep cs (c :: cur)

/-- Python `s.split(sep)` for a one-character separator (keeps empty pieces;
`"".split('/') == ['']`). -/
def strSplit (sep : Char) (s : String) : List String := strSplitAux sep s.data []

/-- Python `sep.join(parts)`. -/
def strJoin (sep : String) : List String → String
  | [] => ""
  | [p] => p
  | p :: ps => p ++ sep ++ strJoin sep ps

/-- Is `p` a prefix of `s` (character lists)? -/
def charsPrefix : List Char → List Char → Bool
  | [], _ => true
  | _ :: _, [] => false
  | p :: ps, c :: cs => p = c && charsPrefix ps cs

/-- Does `pat` occur inside `s` (character lists)? -/
def charsInfix (pat : List Char) : List Char → Bool
  | [] => charsPrefix pat []
  | c :: cs => charsPrefix pat (c :: cs) || charsInfix pat cs

/-- Python `'sys.' in s` (substring containment). -/
def sysIn (s : String) : Bool := charsInfix "sys.".data s.data

/-- Python `s.split('/')[-1]` (the last path segment). -/
def lastSeg (s : String) : String := (strSplit '/' s).getLastD ""

/-- Fulfillment message: only the `webhook` reference is read or written by
the embedded code. -/
structure Fulfillment where
  webhook : String
deriving Repr, DecidableEq, Inhabited

/-- Transition route: trigger (intent or condition), target page and trigger
fulfillment. -/
structure TransitionRoute where
  intent : String
  condition : String
  target_page : String
  trigger_fulfillment : Fulfillment
deriving Repr, DecidableEq, Inhabited

/-- Event handler: target page and trigger fulfillment. -/
structure EventHandler where
  target_page : String
  trigger_fulfillment : Fulfillment
deriving Repr, DecidableEq, Inhabited

/-- Form-parameter fill behavior: initial prompt fulfillment plus reprompt
event handlers. -/
structure FillBehavior where
  initial_prompt_fulfillment : Fulfillment
  reprompt_event_handlers : List EventHandler
deriving Repr, DecidableEq, Inhabited

/-- Form parameter: entity-type reference plus fill behavior. -/
structure FormParameter where
  display_name : String
  entity_type : String
  fill_behavior : FillBehavior
deriving Repr, DecidableEq, Inhabited

/-- A DFCX Page.  `form_parameters` inlines `page.form.parameters`. -/
structure Page where
  name : String
  display_name : String
  entry_fulfillment : Fulfillment
  transition_routes : List TransitionRoute
  event_handlers : List EventHandler
  form_parameters : List FormParameter
  transition_route_groups : List String
deriving Repr, DecidableEq, Inhabited

/-- A transition route group, scoped to a flow. -/
structure RouteGroup where
  name : String
  display_name : String
  transition_routes : List TransitionRoute
deriving Repr, DecidableEq, Inhabited

/-- A flow's Start Page, as consumed by `convert_start_page_dependencies`:
only `transition_routes` is ever touched. -/
structure StartPage where
  name : String
  display_name : String
  transition_routes : List TransitionRoute
deriving Repr, DecidableEq, Inhabited

/-- The categorised dependency sets returned by `get_page_dependencies`
(`resources` defaultdict).  Python converts each list to a `set` at the end;
here the lists are deduplicated, and set-level claims are stated via
membership. -/
structure PageDependencies where
  webhooks : List String
  intents : List String
  entities : List String
  route_groups : List String
deriving Repr, DecidableEq, Inhabited

/-- One page's contribution to the `resources` accumulator in
`get_page_dependencies` (the body of the `for page in obj_list` loop,
lines 689-712). -/
def collectPage (route_groups : List RouteGroup) (acc : PageDependencies)
    (page : Page) : PageDependencies :=
  let acc := if page.entry_fulfillment.webhook ≠ "" then
      { acc with webhooks := acc.webhooks ++ [page.entry_fulfillment.webhook] }
    else acc
  let acc := page.transition_routes.foldl (fun acc tr =>
      if tr.intent ≠ "" then
        { acc with intents := acc.intents ++ [tr.intent] }
      else if tr.condition ≠ "" ∧ tr.trigger_fulfillment.webhook ≠ "" then
        { acc with webhooks := acc.webhooks ++ [tr.trigger_fulfillment.webhook] }
      else acc) acc
  let acc := page.form_parameters.foldl (fun acc param =>
      if sysIn param.entity_type then acc
      else { acc with entities := acc.entities ++ [param.entity_type] }) acc
  page.transition_route_groups.foldl (fun acc trg =>
      let acc := { acc with route_groups := acc.route_groups ++ [trg] }
      route_groups.foldl (fun acc rg =>
        if trg = rg.name then
          rg.transition_routes.foldl (fun acc tr =>
            { acc with intents := acc.intents ++ [tr.intent] }) acc
        else acc) acc) acc

/-- `get_page_dependencies` (lines 673-717).  `listRGs` models the
`self.dfcx.list_transition_route_groups` collaborator.  The Python indexes
`obj_list[0]` before anything else, so the empty list raises `IndexError`,
modelled as `none`. -/
def get_page_dependencies (listRGs : String → List RouteGroup)
    (obj_list : List Page) : Option PageDependencies :=
  match obj_list with
  | [] => none
  | p0 :: rest =>
    let flow_id := strJoin "/" ((strSplit '/' p0.name).take 8)
    let route_groups := listRGs flow_id
    let r := (p0 :: rest).foldl (collectPage route_groups) ⟨[], [], [], []⟩
    some ⟨r.webhooks.dedup, r.intents.dedup, r.entities.dedup,
          r.route_groups.dedup⟩

/-- Effectful traversal of a list (a Python `for` loop whose body may raise
`KeyError`): stops at the first error, otherwise collects the results. -/
def mapE (f : α → Except String β) : List α → Except String (List β)
  | [] => .ok []
  | x :: xs => do
    let y ← f x
    let ys ← mapE f xs
    pure (y :: ys)

/-! ## `convert_page_dependencies` (lines 415-619)

The index maps (`intents_map`, `entities_map`, `webhooks_map`, `pages_map`,
`rgs_map`) are built from the agent by RPC before the per-page loop; here they
are parameters.  In the destination branch the string `flowId` stands for
`flows_map[flow]`, which the Python resolves while building `pages_map`.  The
two `agent_type` branches are embedded as one function per branch, applied to
the deep copy of each page. -/

/-- Source-direction target-page rewrite (lines 439-450, and the identical
blocks at 461-472 and 492-504): a path whose last segment is a sentinel
becomes the bare token without any map lookup; anything else is looked up in
`pages_map`. -/
def cpdSourceTarget (pages_map : Smap) (tp : String) : Except String String :=
  if lastSeg tp = "END_FLOW" then .ok "END_FLOW"
  else if lastSeg tp = "END_SESSION" then .ok "END_SESSION"
  else if lastSeg tp = "CURRENT_PAGE" then .ok "CURRENT_PAGE"
  else mget pages_map tp

/-- Destination-direction target-page rewrite (lines 542-553, and the
identical blocks at 564-575 and 594-605): a bare sentinel token becomes
`flows_map[flow] + '/pages/' + token`; anything else is looked up in the
reversed `pages_map`. -/
def cpdDestTarget (flowId : String) (pages_map : Smap) (tp : String) :
    Except String String :=
  if tp = "END_FLOW" then .ok (flowId ++ "/pages/END_FLOW")
  else if tp = "END_SESSION" then .ok (flowId ++ "/pages/END_SESSION")
  else if tp = "CURRENT_PAGE" then .ok (flowId ++ "/pages/CURRENT_PAGE")
  else mget pages_map tp

/-- The intent / trigger-webhook part of a transition-route rewrite
(lines 452-457 and, with reversed maps, 555-560 — textually identical):
an intent-triggered route has its intent and (if set) webhook looked up; a
condition-triggered route has only its webhook looked up. -/
def cpdTRrest (intents_map webhooks_map : Smap) (tr : TransitionRoute) :
    Except String TransitionRoute :=
  if tr.intent ≠ "" then do
    let i ← mget intents_map tr.intent
    let tr := { tr with intent := i }
    if tr.trigger_fulfillment.webhook ≠ "" then do
      let w ← mget webhooks_map tr.trigger_fulfillment.webhook
      pure { tr with trigger_fulfillment := ⟨w⟩ }
    else pure tr
  else if tr.condition ≠ "" ∧ tr.trigger_fulfillment.webhook ≠ "" then do
    let w ← mget webhooks_map tr.trigger_fulfillment.webhook
    pure { tr with trigger_fulfillment := ⟨w⟩ }
  else pure tr

/-- Source-direction transition-route rewrite (lines 438-457): target page
first, then intent / webhook. -/
def cpdSourceTR (intents_map webhooks_map pages_map : Smap)
    (tr : TransitionRoute) : Except String TransitionRoute := do
  let tr ← if tr.target_page ≠ "" then
      (cpdSourceTarget pages_map tr.target_page).map
        (fun tp => { tr with target_page := tp })
    else pure tr
  cpdTRrest intents_map webhooks_map tr

/-- Destination-direction transition-route rewrite (lines 541-560). -/
def cpdDestTR (flowId : String) (intents_map webhooks_map pages_map : Smap)
    (tr : TransitionRoute) : Except String TransitionRoute := do
  let tr ← if tr.target_page ≠ "" then
      (cpdDestTarget flowId pages_map tr.target_page).map
        (fun tp => { tr with target_page := tp })
    else pure tr
  cpdTRrest intents_map webhooks_map tr

/-- Source-direction event-handler rewrite (lines 460-476): target page, then
trigger-fulfillment webhook. -/
def cpdSourceEH (webhooks_map pages_map : Smap) (h : EventHandler) :
    Except String EventHandler := do
  let h ← if h.target_page ≠ "" then
      (cpdSourceTarget pages_map h.target_page).map
        (fun tp => { h with target_page := tp })
    else pure h
  if h.trigger_fulfillment.webhook ≠ "" then
    (mget webhooks_map h.trigger_fulfillment.webhook).map
      (fun w => { h with trigger_fulfillment := ⟨w⟩ })
  else pure h

/-- Destination-direction event-handler rewrite (lines 563-579). -/
def cpdDestEH (flowId : String) (webhooks_map pages_map : Smap)
    (h : EventHandler) : Except String EventHandler := do
  let h ← if h.target_page ≠ "" then
      (cpdDestTarget flowId pages_map h.target_page).map
        (fun tp => { h with target_page := tp })
    else pure h
  if h.trigger_fulfillment.webhook ≠ "" then
    (mget webhooks_map h.trigger_fulfillment.webhook).map
      (fun w => { h with trigger_fulfillment := ⟨w⟩ })
  else pure h

/-- Source-direction reprompt-event-handler rewrite (lines 487-504): webhook
first, then target page (the opposite order from page-level event handlers). -/
def cpdSourceReprompt (webhooks_map pages_map : Smap) (h : EventHandler) :
    Except String EventHandler := do
  let h ← if h.trigger_fulfillment.webhook ≠ "" then
      (mget webhooks_map h.trigger_fulfillment.webhook).map
        (fun w => { h with trigger_fulfillment := ⟨w⟩ })
    else pure h
  if h.target_page ≠ "" then
    (cpdSourceTarget pages_map h.target_page).map
      (fun tp => { h with target_page := tp })
  else pure h

/-- Destination-direction reprompt-event-handler rewrite (lines 589-605). -/
def cpdDestReprompt (flowId : String) (webhooks_map pages_map : Smap)
    (h : EventHandler) : Except String EventHandler := do
  let h ← if h.trigger_fulfillment.webhook ≠ "" then
      (mget webhooks_map h.trigger_fulfillment.webhook).map
        (fun w => { h with trigger_fulfillment := ⟨w⟩ })
    else pure h
  if h.target_page ≠ "" then
    (cpdDestTarget flowId pages_map h.target_page).map
      (fun tp => { h with target_page := tp })
  else pure h

/-- The entity-type step of a form-parameter rewrite (lines 507-510 and the
identical 607-610): a reference containing `sys.` passes through untouched;
anything else is looked up in `entities_map`. -/
def cpdEntity (entities_map : Smap) (et : String) : Except String String :=
  if sysIn et then .ok et else mget entities_map et

/-- Source-direction form-parameter rewrite (lines 480-510): fill-behavior
initial-prompt webhook, reprompt event handlers, then the entity type. -/
def cpdSourceParam (entities_map webhooks_map pages_map : Smap)
    (p : FormParameter) : Except String FormParameter := do
  let ipf ← if p.fill_behavior.initial_prompt_fulfillment.webhook ≠ "" then
      (mget webhooks_map p.fill_behavior.initial_prompt_fulfillment.webhook).map
        Fulfillment.mk
    else pure p.fill_behavior.initial_prompt_fulfillment
  let reh ← mapE (cpdSourceReprompt webhooks_map pages_map)
      p.fill_behavior.reprompt_event_handlers
  let p := { p with fill_behavior := ⟨ipf, reh⟩ }
  (cpdEntity entities_map p.entity_type).map
    (fun et => { p with entity_type := et })

/-- Destination-direction form-parameter rewrite (lines 583-610). -/
def cpdDestParam (flowId : String) (entities_map webhooks_map pages_map : Smap)
    (p : FormParameter) : Except String FormParameter := do
  let ipf ← if p.fill_behavior.initial_prompt_fulfillment.webhook ≠ "" then
      (mget webhooks_map p.fill_behavior.initial_prompt_fulfillment.webhook).map
        Fulfillment.mk
    else pure p.fill_behavior.initial_prompt_fulfillment
  let reh ← mapE (cpdDestReprompt flowId webhooks_map pages_map)
      p.fill_behavior.reprompt_event_handlers
  let p := { p with fill_behavior := ⟨ipf, reh⟩ }
  (cpdEntity entities_map p.entity_type).map
    (fun et => { p with entity_type := et })

/-- Source-direction rewrite of one page (the body of the
`for page in pages_mod` loop, lines 432-517): entry-fulfillment webhook,
transition routes, event handlers, form parameters, route-group references. -/
def cpdSourcePage (intents_map entities_map webhooks_map pages_map rgs_map :
    Smap) (page : Page) : Except String Page := do
  let ef ← if page.entry_fulfillment.webhook ≠ "" then
      (mget webhooks_map page.entry_fulfillment.webhook).map Fulfillment.mk
    else pure page.entry_fulfillment
  let trs ← mapE (cpdSourceTR intents_map webhooks_map pages_map)
      page.transition_routes
  let ehs ← mapE (cpdSourceEH webhooks_map pages_map) page.event_handlers
  let params ← mapE (cpdSourceParam entities_map webhooks_map pages_map)
      page.form_parameters
  let rgs ← mapE (mget rgs_map) page.transition_route_groups
  pure { page with entry_fulfillment := ef, transition_routes := trs,
                   event_handlers := ehs, form_parameters := params,
                   transition_route_groups := rgs }

/-- Destination-direction rewrite of one page (lines 533-617): the page's own
`name` is resolved from the reversed pages map first, then the same traversal
as the source branch with reversed maps and the destination sentinel
expansion. -/
def cpdDestPage (flowId : String)
    (intents_map entities_map webhooks_map pages_map rgs_map : Smap)
    (page : Page) : Except String Page := do
  let nm ← mget pages_map page.display_name
  let ef ← if page.entry_fulfillment.webhook ≠ "" then
      (mget webhooks_map page.entry_fulfillment.webhook).map Fulfillment.mk
    else pure page.entry_fulfillment
  let trs ← mapE (cpdDestTR flowId intents_map webhooks_map pages_map)
      page.transition_routes
  let ehs ← mapE (cpdDestEH flowId webhooks_map pages_map) page.event_handlers
  let params ← mapE (cpdDestParam flowId entities_map webhooks_map pages_map)
      page.form_parameters
  let rgs ← mapE (mget rgs_map) page.transition_route_groups
  pure { page with name := nm, entry_fulfillment := ef,
                   transition_routes := trs, event_handlers := ehs,
                   form_parameters := params, transition_route_groups := rgs }

/-- `convert_page_dependencies` (lines 415-619): deep-copy the input pages and
apply the branch selected by `agent_type`; an unrecognised `agent_type`
returns the unmodified copy. -/
def convert_page_dependencies (agent_type : String)
    (intents_map entities_map webhooks_map pages_map rgs_map : Smap)
    (flowId : String) (pages : List Page) : Except String (List Page) :=
  if agent_type = "source" then
    mapE (cpdSourcePage intents_map entities_map webhooks_map pages_map
      rgs_map) pages
  else if agent_type = "destination" then
    mapE (cpdDestPage flowId intents_map entities_map webhooks_map pages_map
      rgs_map) pages
  else .ok pages

/-! ## `convert_start_page_dependencies` (lines 622-669) -/

/-- Source-direction target rewrite for the Start Page (lines 632-638):
sentinel set {END_FLOW, START_PAGE}. -/
def cspSourceTarget (pages_map : Smap) (tp : String) : Except String String :=
  if lastSeg tp = "END_FLOW" then .ok "END_FLOW"
  else if lastSeg tp = "START_PAGE" then .ok "START_PAGE"
  else mget pages_map tp

/-- Destination-direction target rewrite for the Start Page (lines 654-660). -/
def cspDestTarget (flowId : String) (pages_map : Smap) (tp : String) :
    Except String String :=
  if tp = "END_FLOW" then .ok (flowId ++ "/pages/END_FLOW")
  else if tp = "START_PAGE" then .ok (flowId ++ "/pages/START_PAGE")
  else mget pages_map tp

/-- Source-direction Start-Page transition-route rewrite (lines 631-645). -/
def cspSourceTR (intents_map webhooks_map pages_map : Smap)
    (tr : TransitionRoute) : Except String TransitionRoute := do
  let tr ← if tr.target_page ≠ "" then
      (cspSourceTarget pages_map tr.target_page).map
        (fun tp => { tr with target_page := tp })
    else pure tr
  cpdTRrest intents_map webhooks_map tr

/-- Destination-direction Start-Page transition-route rewrite
(lines 653-667). -/
def cspDestTR (flowId : String) (intents_map webhooks_map pages_map : Smap)
    (tr : TransitionRoute) : Except String TransitionRoute := do
  let tr ← if tr.target_page ≠ "" then
      (cspDestTarget flowId pages_map tr.target_page).map
        (fun tp => { tr with target_page := tp })
    else pure tr
  cpdTRrest intents_map webhooks_map tr

/-- `convert_start_page_dependencies` (lines 622-669): deep-copy the start
page and rewrite only its transition routes in the branch selected by
`agent_type`. -/
def convert_start_page_dependencies (agent_type : String)
    (intents_map webhooks_map pages_map : Smap) (flowId : String)
    (start_page : StartPage) : Except String StartPage :=
  if agent_type = "source" then
    (mapE (cspSourceTR intents_map webhooks_map pages_map)
      start_page.transition_routes).map
      (fun trs => { start_page with transition_routes := trs })
  else if agent_type = "destination" then
    (mapE (cspDestTR flowId intents_map webhooks_map pages_map)
      start_page.transition_routes).map
      (fun trs => { start_page with transition_routes := trs })
  else .ok start_page

/-! ## Route-group rewriting inside `copy_paste_agent_resources`
(lines 386-404) -/

/-- The per-route rewrite of the route-group paste step (lines 387-404).
The intent is translated unconditionally (no `'intent' in tr` guard) through
the two-hop source-id → display-name → destination-id lookup; the webhook and
the target page are translated only when set, the END_FLOW sentinel being
rebuilt as a destination-flow-qualified path. -/
def cprTR (source_intents destination_intents source_webhooks
    destination_webhooks source_pages destination_pages : Smap)
    (destFlowId : String) (tr : TransitionRoute) :
    Except String TransitionRoute := do
  let source_name ← mget source_intents tr.intent
  let destination_name ← mget destination_intents source_name
  let tr := { tr with intent := destination_name }
  let tr ← if tr.trigger_fulfillment.webhook ≠ "" then do
      let sw ← mget source_webhooks tr.trigger_fulfillment.webhook
      let dw ← mget destination_webhooks sw
      pure { tr with trigger_fulfillment := ⟨dw⟩ }
    else pure tr
  if tr.target_page ≠ "" then
    if lastSeg tr.target_page = "END_FLOW" then
      pure { tr with target_page := destFlowId ++ "/pages/END_FLOW" }
    else do
      let sp ← mget source_pages tr.target_page
      let dp ← mget destination_pages sp
      pure { tr with target_page := dp }
  else pure tr

/-- The rewrite of one route group in the paste step (the body of the
`for rg in resource_obj_dict['route_groups']` loop, lines 386-404, up to the
creation call). -/
def cprRG (source_intents destination_intents source_webhooks
    destination_webhooks source_pages destination_pages : Smap)
    (destFlowId : String) (rg : RouteGroup) : Except String RouteGroup :=
  (mapE (cprTR source_intents destination_intents source_webhooks
      destination_webhooks source_pages destination_pages destFlowId)
    rg.transition_routes).map
    (fun trs => { rg with transition_routes := trs })

/-! ## Store-passing wrappers (deep copy discipline)

`convert_page_dependencies` / `convert_start_page_dependencies` begin with
`copy.deepcopy` and mutate only the copy.  To state the frame property, the
object heap is modelled as a list of values; the inputs are addresses into it.
`deepcopy` allocates fresh cells holding copies at the end of the store; every
write of the loop lands in those fresh cells; the returned addresses are the
fresh ones. -/

/-- Store-passing `convert_page_dependencies`: the input is a list of
addresses into the store; the result is the extended store plus the addresses
of the rewritten deep copies. -/
def convert_page_dependencies_st (agent_type : String)
    (intents_map entities_map webhooks_map pages_map rgs_map : Smap)
    (flowId : String) (store : List Page) (addrs : List Nat) :
    Except String (List Page × List Nat) := do
  let copies := addrs.map (fun a => store.getD a default)
  let out ← convert_page_dependencies agent_type intents_map entities_map
      webhooks_map pages_map rgs_map flowId copies
  pure (store ++ out, List.range' store.length out.length)

/-- Store-passing `convert_start_page_dependencies`. -/
def convert_start_page_dependencies_st (agent_type : String)
    (intents_map webhooks_map pages_map : Smap) (flowId : String)
    (store : List StartPage) (addr : Nat) :
    Except String (List StartPage × Nat) := do
  let out ← convert_start_page_dependencies agent_type intents_map
      webhooks_map pages_map flowId (store.getD addr default)
  pure (store ++ [out], store.length)

/-! ## Spec-side round-trip rewrite (for the round-trip property)

Modelled from the spec (§8 Round-trip): rewriting a Page from agent A's
identifier space straight into agent B's, replacing every reference by B's
identifier for the display name that A's identifier had, in one pass: each
reference is translated by the two-hop lookup A-id → display-name → B-id,
sentinel targets are rebuilt against B's destination flow, `sys.` entity
types pass through, and the page's own `name` is resolved from B's
page-name → id map.  These `rt*` definitions follow the spec's words and are
compared against the composition of the two code branches. -/

/-- Two-hop reference translation: source id → display name → destination
id. -/
def rtLookup (mA mB : Smap) (k : String) : Except String String := do
  let n ← mget mA k
  mget mB n

/-- Two-hop target-page translation with sentinel rebuild. -/
def rtTarget (flowB : String) (pmA pmB : Smap) (tp : String) :
    Except String String :=
  if lastSeg tp = "END_FLOW" then .ok (flowB ++ "/pages/END_FLOW")
  else if lastSeg tp = "END_SESSION" then .ok (flowB ++ "/pages/END_SESSION")
  else if lastSeg tp = "CURRENT_PAGE" then .ok (flowB ++ "/pages/CURRENT_PAGE")
  else rtLookup pmA pmB tp

/-- Two-hop intent / trigger-webhook translation of a transition route. -/
def rtTRrest (imA imB wmA wmB : Smap) (tr : TransitionRoute) :
    Except String TransitionRoute :=
  if tr.intent ≠ "" then do
    let i ← rtLookup imA imB tr.intent
    let tr := { tr with intent := i }
    if tr.trigger_fulfillment.webhook ≠ "" then do
      let w ← rtLookup wmA wmB tr.trigger_fulfillment.webhook
      pure { tr with trigger_fulfillment := ⟨w⟩ }
    else pure tr
  else if tr.condition ≠ "" ∧ tr.trigger_fulfillment.webhook ≠ "" then do
    let w ← rtLookup wmA wmB tr.trigger_fulfillment.webhook
    pure { tr with trigger_fulfillment := ⟨w⟩ }
  else pure tr

/-- Two-hop translation of a transition route. -/
def rtTR (flowB : String) (imA imB wmA wmB pmA pmB : Smap)
    (tr : TransitionRoute) : Except String TransitionRoute := do
  let tr ← if tr.target_page ≠ "" then
      (rtTarget flowB pmA pmB tr.target_page).map
        (fun tp => { tr with target_page := tp })
    else pure tr
  rtTRrest imA imB wmA wmB tr

/-- Two-hop translation of an event handler. -/
def rtEH (flowB : String) (wmA wmB pmA pmB : Smap) (h : EventHandler) :
    Except String EventHandler := do
  let h ← if h.target_page ≠ "" then
      (rtTarget flowB pmA pmB h.target_page).map
        (fun tp => { h with target_page := tp })
    else pure h
  if h.trigger_fulfillment.webhook ≠ "" then
    (rtLookup wmA wmB h.trigger_fulfillment.webhook).map
      (fun w => { h with trigger_fulfillment := ⟨w⟩ })
  else pure h

/-- Two-hop translation of a reprompt event handler (webhook first, then
target, mirroring the traversal order of the code). -/
def rtReprompt (flowB : String) (wmA wmB pmA pmB : Smap) (h : EventHandler) :
    Except String EventHandler := do
  let h ← if h.trigger_fulfillment.webhook ≠ "" then
      (rtLookup wmA wmB h.trigger_fulfillment.webhook).map
        (fun w => { h with trigger_fulfillment := ⟨w⟩ })
    else pure h
  if h.target_page ≠ "" then
    (rtTarget flowB pmA pmB h.target_page).map
      (fun tp => { h with target_page := tp })
  else pure h

/-- Two-hop translation of a form parameter (`sys.` entity types pass
through). -/
def rtParam (flowB : String) (emA emB wmA wmB pmA pmB : Smap)
    (p : FormParameter) : Except String FormParameter := do
  let ipf ← if p.fill_behavior.initial_prompt_fulfillment.webhook ≠ "" then
      (rtLookup wmA wmB p.fill_behavior.initial_prompt_fulfillment.webhook).map
        Fulfillment.mk
    else pure p.fill_behavior.initial_prompt_fulfillment
  let reh ← mapE (rtReprompt flowB wmA wmB pmA pmB)
      p.fill_behavior.reprompt_event_handlers
  let p := { p with fill_behavior := ⟨ipf, reh⟩ }
  if sysIn p.entity_type then pure p
  else do
    let et ← rtLookup emA emB p.entity_type
    pure { p with entity_type := et }

/-- Two-hop translation of a whole Page: B's identifiers for A's display
names, with the page structure preserved. -/
def rtPage (flowB : String)
    (imA imB emA emB wmA wmB pmA pmB rmA rmB : Smap) (page : Page) :
    Except String Page := do
  let nm ← mget pmB page.display_name
  let ef ← if page.entry_fulfillment.webhook ≠ "" then
      (rtLookup wmA wmB page.entry_fulfillment.webhook).map Fulfillment.mk
    else pure page.entry_fulfillment
  let trs ← mapE (rtTR flowB imA imB wmA wmB pmA pmB) page.transition_routes
  let ehs ← mapE (rtEH flowB wmA wmB pmA pmB) page.event_handlers
  let params ← mapE (rtParam flowB emA emB wmA wmB pmA pmB)
      page.form_parameters
  let rgs ← mapE (rtLookup rmA rmB) page.transition_route_groups
  pure { page with name := nm, entry_fulfillment := ef,
                   transition_routes := trs, event_handlers := ehs,
                   form_parameters := params, transition_route_groups := rgs }

/-- Values of an index map satisfy a predicate (used to express that an
agent's display names are well-formed). -/
def mapValues (m : Smap) (P : String → Prop) : Prop := ∀ kv ∈ m, P kv.2

/-- A healthy pages map: no display name is empty or collides with a sentinel
token (such a display name would be misread by the destination branch). -/
def goodPageVals (m : Smap) : Prop :=
  mapValues m (fun v => v ≠ "" ∧ v ≠ "END_FLOW" ∧ v ≠ "END_SESSION" ∧
    v ≠ "CURRENT_PAGE")

/-! ## Concrete instances used in scenario theorems -/

def cexRGs : String → List RouteGroup :=
  fun _ => [⟨"ra", "RG", [⟨"ib", "", "", ⟨""⟩⟩]⟩]

def cexPage : Page :=
  ⟨"p/l/a/b/flows/f/pages/x", "X", ⟨"wa"⟩, [⟨"ia", "", "", ⟨"wb"⟩⟩], [],
   [⟨"pn", "ea", ⟨⟨""⟩, []⟩⟩], ["ra"]⟩

def cexDeps : PageDependencies := ⟨["wa"], ["ia", "ib"], ["ea"], ["ra"]⟩

def pC3 : Page :=
  ⟨"fA/pages/x", "X", ⟨"w1"⟩, [⟨"i1", "", "fA/pages/END_FLOW", ⟨"w1"⟩⟩],
   [⟨"fA/pages/y", ⟨"w1"⟩⟩],
   [⟨"par", "e1", ⟨⟨"w1"⟩, [⟨"fA/pages/y", ⟨"w1"⟩⟩]⟩⟩], ["rg1"]⟩

def qC3 : Page :=
  ⟨"fA/pages/x", "X", ⟨"Hook"⟩, [⟨"Int", "", "END_FLOW", ⟨"Hook"⟩⟩],
   [⟨"Y", ⟨"Hook"⟩⟩],
   [⟨"par", "Ent", ⟨⟨"Hook"⟩, [⟨"Y", ⟨"Hook"⟩⟩]⟩⟩], ["RG"]⟩

def rC3 : Page :=
  ⟨"fB/pages/x2", "X", ⟨"w2"⟩, [⟨"i2", "", "fB/pages/END_FLOW", ⟨"w2"⟩⟩],
   [⟨"fB/pages/y2", ⟨"w2"⟩⟩],
   [⟨"par", "e2", ⟨⟨"w2"⟩, [⟨"fB/pages/y2", ⟨"w2"⟩⟩]⟩⟩], ["rg2"]⟩

/-! ## Infrastructure lemmas -/

theorem bindE_ok {α β : Type} (a : α) (f : α → Except String β) :
    (Except.ok a >>= f) = f a := rfl

theorem bindE_error {α β : Type} (e : String) (f : α → Except String β) :
    ((Except.error e : Except String α) >>= f) = .error e := rfl

theorem pureE {α : Type} (a : α) : (pure a : Except String α) = .ok a := rfl

theorem emap_ok {α β : Type} (g : α → β) (a : α) :
    (Except.ok a : Except String α).map g = .ok (g a) := rfl

theorem bind_ok_iff {α β : Type} {e : Except String α}
    {f : α → Except String β} {b : β} :
    (e >>= f) = .ok b ↔ ∃ a, e = .ok a ∧ f a = .ok b := by
  cases e <;> simp [bindE_ok, bindE_error]

theorem emap_ok_iff {α β : Type} {e : Except String α} {g : α → β} {b : β} :
    e.map g = .ok b ↔ ∃ a, e = .ok a ∧ g a = b := by
  cases e <;> simp [Except.map]

theorem mapE_cons_ok_iff {α β : Type} {f : α → Except String β} {x : α}
    {xs : List α} {ys : List β} :
    mapE f (x :: xs) = .ok ys ↔
      ∃ y ys', f x = .ok y ∧ mapE f xs = .ok ys' ∧ ys = y :: ys' := by
  simp only [mapE, bind_ok_iff, pureE, Except.ok.injEq]
  constructor
  · rintro ⟨y, hy, ys', hys', rfl⟩
    exact ⟨y, ys', hy, hys', rfl⟩
  · rintro ⟨y, ys', hy, hys', rfl⟩
    exact ⟨y, hy, ys', hys', rfl⟩

theorem mapE_comp {α β γ : Type} {f : α → Except String β}
    {g : β → Except String γ} {h : α → Except String γ}
    (H : ∀ x y z, f x = .ok y → g y = .ok z → h x = .ok z) :
    ∀ {xs : List α} {ys : List β} {zs : List γ},
      mapE f xs = .ok ys → mapE g ys = .ok zs → mapE h xs = .ok zs := by
  intro xs
  induction xs with
  | nil =>
    intro ys zs h1 h2
    simp only [mapE, Except.ok.injEq] at h1
    subst h1
    simpa [mapE] using h2
  | cons x xs ih =>
    intro ys zs h1 h2
    rw [mapE_cons_ok_iff] at h1
    obtain ⟨y, ys', hy, hys', rfl⟩ := h1
    rw [mapE_cons_ok_iff] at h2
    obtain ⟨z, zs', hz, hzs', rfl⟩ := h2
    rw [mapE_cons_ok_iff]
    exact ⟨z, zs', H x y z hy hz, ih hys' hzs', rfl⟩

theorem mapE_error_of_mem {α β : Type} {f : α → Except String β} {x : α}
    {xs : List α} {e : String} (hx : x ∈ xs) (he : f x = .error e) :
    ∃ e', mapE f xs = .error e' := by
  induction xs with
  | nil => cases hx
  | cons y ys ih =>
    cases hx with
    | head =>
      exact ⟨e, by simp [mapE, he, bindE_error]⟩
    | tail _ hmem =>
      cases hy : f y with
      | error e' => exact ⟨e', by simp [mapE, hy, bindE_error]⟩
      | ok b =>
        obtain ⟨e', he'⟩ := ih hmem
        exact ⟨e', by simp [mapE, hy, bindE_ok, he', bindE_error]⟩

theorem mlookup_mem {m : Smap} {k v : String}
    (h : mlookup m k = some v) : (k, v) ∈ m := by
  induction m with
  | nil => simp [mlookup] at h
  | cons kv m ih =>
    obtain ⟨k', v'⟩ := kv
    simp only [mlookup] at h
    split at h
    · obtain ⟨rfl⟩ := h
      rename_i hk
      subst hk
      exact List.mem_cons_self _ _
    · exact List.mem_cons_of_mem _ (ih h)

theorem mget_ok_iff {m : Smap} {k v : String} :
    mget m k = .ok v ↔ mlookup m k = some v := by
  unfold mget
  cases h : mlookup m k <;> simp

theorem mget_error_iff {m : Smap} {k e : String} :
    mget m k = .error e ↔ mlookup m k = none ∧ e = k := by
  unfold mget
  cases h : mlookup m k <;> simp [eq_comm]


/-! ## Clean-form equations and composition lemmas -/

theorem cpdTRrest_mk (im wm : Smap) (ti tc tp tww : String) :
    cpdTRrest im wm ⟨ti, tc, tp, ⟨tww⟩⟩ =
      if ti = "" then
        (if tc = "" ∨ tww = "" then .ok ⟨ti, tc, tp, ⟨tww⟩⟩
         else (mget wm tww).map fun w => ⟨ti, tc, tp, ⟨w⟩⟩)
      else (mget im ti).bind fun i =>
        if tww = "" then .ok ⟨i, tc, tp, ⟨tww⟩⟩
        else (mget wm tww).map fun w => ⟨i, tc, tp, ⟨w⟩⟩ := by
  unfold cpdTRrest
  by_cases hti : ti = "" <;> by_cases hc : tc = "" <;> by_cases hw : tww = "" <;>
    cases h1 : mget im ti <;> cases h2 : mget wm tww <;>
      simp [hti, hc, hw, h1, h2, bindE_ok, bindE_error, pureE, Except.map, Except.bind]

theorem rtTRrest_mk (imA imB wmA wmB : Smap) (ti tc tp tww : String) :
    rtTRrest imA imB wmA wmB ⟨ti, tc, tp, ⟨tww⟩⟩ =
      if ti = "" then
        (if tc = "" ∨ tww = "" then .ok ⟨ti, tc, tp, ⟨tww⟩⟩
         else (rtLookup wmA wmB tww).map fun w => ⟨ti, tc, tp, ⟨w⟩⟩)
      else (rtLookup imA imB ti).bind fun i =>
        if tww = "" then .ok ⟨i, tc, tp, ⟨tww⟩⟩
        else (rtLookup wmA wmB tww).map fun w => ⟨i, tc, tp, ⟨w⟩⟩ := by
  unfold rtTRrest
  by_cases hti : ti = "" <;> by_cases hc : tc = "" <;> by_cases hw : tww = "" <;>
    cases h1 : rtLookup imA imB ti <;> cases h2 : rtLookup wmA wmB tww <;>
      simp [hti, hc, hw, h1, h2, bindE_ok, bindE_error, pureE, Except.map, Except.bind]

theorem cpdSourceTR_mk (im wm pm : Smap) (ti tc tp tww : String) :
    cpdSourceTR im wm pm ⟨ti, tc, tp, ⟨tww⟩⟩ =
      if tp = "" then cpdTRrest im wm ⟨ti, tc, tp, ⟨tww⟩⟩
      else (cpdSourceTarget pm tp).bind fun u =>
        cpdTRrest im wm ⟨ti, tc, u, ⟨tww⟩⟩ := by
  unfold cpdSourceTR
  by_cases htp : tp = "" <;> cases h : cpdSourceTarget pm tp <;>
    simp [htp, h, bindE_ok, bindE_error, pureE, Except.map, Except.bind]

theorem cpdDestTR_mk (flowId : String) (im wm pm : Smap)
    (ti tc tp tww : String) :
    cpdDestTR flowId im wm pm ⟨ti, tc, tp, ⟨tww⟩⟩ =
      if tp = "" then cpdTRrest im wm ⟨ti, tc, tp, ⟨tww⟩⟩
      else (cpdDestTarget flowId pm tp).bind fun u =>
        cpdTRrest im wm ⟨ti, tc, u, ⟨tww⟩⟩ := by
  unfold cpdDestTR
  by_cases htp : tp = "" <;> cases h : cpdDestTarget flowId pm tp <;>
    simp [htp, h, bindE_ok, bindE_error, pureE, Except.map, Except.bind]

theorem rtTR_mk (flowB : String) (imA imB wmA wmB pmA pmB : Smap)
    (ti tc tp tww : String) :
    rtTR flowB imA imB wmA wmB pmA pmB ⟨ti, tc, tp, ⟨tww⟩⟩ =
      if tp = "" then rtTRrest imA imB wmA wmB ⟨ti, tc, tp, ⟨tww⟩⟩
      else (rtTarget flowB pmA pmB tp).bind fun u =>
        rtTRrest imA imB wmA wmB ⟨ti, tc, u, ⟨tww⟩⟩ := by
  unfold rtTR
  by_cases htp : tp = "" <;> cases h : rtTarget flowB pmA pmB tp <;>
    simp [htp, h, bindE_ok, bindE_error, pureE, Except.map, Except.bind]

theorem cspSourceTR_mk (im wm pm : Smap) (ti tc tp tww : String) :
    cspSourceTR im wm pm ⟨ti, tc, tp, ⟨tww⟩⟩ =
      if tp = "" then cpdTRrest im wm ⟨ti, tc, tp, ⟨tww⟩⟩
      else (cspSourceTarget pm tp).bind fun u =>
        cpdTRrest im wm ⟨ti, tc, u, ⟨tww⟩⟩ := by
  unfold cspSourceTR
  by_cases htp : tp = "" <;> cases h : cspSourceTarget pm tp <;>
    simp [htp, h, bindE_ok, bindE_error, pureE, Except.map, Except.bind]

theorem cspDestTR_mk (flowId : String) (im wm pm : Smap)
    (ti tc tp tww : String) :
    cspDestTR flowId im wm pm ⟨ti, tc, tp, ⟨tww⟩⟩ =
      if tp = "" then cpdTRrest im wm ⟨ti, tc, tp, ⟨tww⟩⟩
      else (cspDestTarget flowId pm tp).bind fun u =>
        cpdTRrest im wm ⟨ti, tc, u, ⟨tww⟩⟩ := by
  unfold cspDestTR
  by_cases htp : tp = "" <;> cases h : cspDestTarget flowId pm tp <;>
    simp [htp, h, bindE_ok, bindE_error, pureE, Except.map, Except.bind]

theorem cpdSourceEH_mk (wm pm : Smap) (tp tww : String) :
    cpdSourceEH wm pm ⟨tp, ⟨tww⟩⟩ =
      (if tp = "" then .ok tp else cpdSourceTarget pm tp).bind fun u =>
        if tww = "" then .ok ⟨u, ⟨tww⟩⟩
        else (mget wm tww).map fun w => ⟨u, ⟨w⟩⟩ := by
  unfold cpdSourceEH
  by_cases htp : tp = "" <;> by_cases hw : tww = "" <;>
    cases h1 : cpdSourceTarget pm tp <;> cases h2 : mget wm tww <;>
      simp [htp, hw, h1, h2, bindE_ok, bindE_error, pureE, Except.map, Except.bind]

theorem cpdDestEH_mk (flowId : String) (wm pm : Smap) (tp tww : String) :
    cpdDestEH flowId wm pm ⟨tp, ⟨tww⟩⟩ =
      (if tp = "" then .ok tp else cpdDestTarget flowId pm tp).bind fun u =>
        if tww = "" then .ok ⟨u, ⟨tww⟩⟩
        else (mget wm tww).map fun w => ⟨u, ⟨w⟩⟩ := by
  unfold cpdDestEH
  by_cases htp : tp = "" <;> by_cases hw : tww = "" <;>
    cases h1 : cpdDestTarget flowId pm tp <;> cases h2 : mget wm tww <;>
      simp [htp, hw, h1, h2, bindE_ok, bindE_error, pureE, Except.map, Except.bind]

theorem rtEH_mk (flowB : String) (wmA wmB pmA pmB : Smap) (tp tww : String) :
    rtEH flowB wmA wmB pmA pmB ⟨tp, ⟨tww⟩⟩ =
      (if tp = "" then .ok tp else rtTarget flowB pmA pmB tp).bind fun u =>
        if tww = "" then .ok ⟨u, ⟨tww⟩⟩
        else (rtLookup wmA wmB tww).map fun w => ⟨u, ⟨w⟩⟩ := by
  unfold rtEH
  by_cases htp : tp = "" <;> by_cases hw : tww = "" <;>
    cases h1 : rtTarget flowB pmA pmB tp <;> cases h2 : rtLookup wmA wmB tww <;>
      simp [htp, hw, h1, h2, bindE_ok, bindE_error, pureE, Except.map, Except.bind]

theorem cpdSourceReprompt_mk (wm pm : Smap) (tp tww : String) :
    cpdSourceReprompt wm pm ⟨tp, ⟨tww⟩⟩ =
      (if tww = "" then .ok tww else mget wm tww).bind fun w =>
        if tp = "" then .ok ⟨tp, ⟨w⟩⟩
        else (cpdSourceTarget pm tp).map fun u => ⟨u, ⟨w⟩⟩ := by
  unfold cpdSourceReprompt
  by_cases htp : tp = "" <;> by_cases hw : tww = "" <;>
    cases h1 : cpdSourceTarget pm tp <;> cases h2 : mget wm tww <;>
      simp [htp, hw, h1, h2, bindE_ok, bindE_error, pureE, Except.map, Except.bind]

theorem cpdDestReprompt_mk (flowId : String) (wm pm : Smap) (tp tww : String) :
    cpdDestReprompt flowId wm pm ⟨tp, ⟨tww⟩⟩ =
      (if tww = "" then .ok tww else mget wm tww).bind fun w =>
        if tp = "" then .ok ⟨tp, ⟨w⟩⟩
        else (cpdDestTarget flowId pm tp).map fun u => ⟨u, ⟨w⟩⟩ := by
  unfold cpdDestReprompt
  by_cases htp : tp = "" <;> by_cases hw : tww = "" <;>
    cases h1 : cpdDestTarget flowId pm tp <;> cases h2 : mget wm tww <;>
      simp [htp, hw, h1, h2, bindE_ok, bindE_error, pureE, Except.map, Except.bind]

theorem rtReprompt_mk (flowB : String) (wmA wmB pmA pmB : Smap)
    (tp tww : String) :
    rtReprompt flowB wmA wmB pmA pmB ⟨tp, ⟨tww⟩⟩ =
      (if tww = "" then .ok tww else rtLookup wmA wmB tww).bind fun w =>
        if tp = "" then .ok ⟨tp, ⟨w⟩⟩
        else (rtTarget flowB pmA pmB tp).map fun u => ⟨u, ⟨w⟩⟩ := by
  unfold rtReprompt
  by_cases htp : tp = "" <;> by_cases hw : tww = "" <;>
    cases h1 : rtTarget flowB pmA pmB tp <;> cases h2 : rtLookup wmA wmB tww <;>
      simp [htp, hw, h1, h2, bindE_ok, bindE_error, pureE, Except.map, Except.bind]

theorem mget_ok_ne {m : Smap} {k v : String}
    (hm : mapValues m (· ≠ "")) (h : mget m k = .ok v) : v ≠ "" :=
  hm _ (mlookup_mem (mget_ok_iff.mp h))

theorem mget_ok_nosys {m : Smap} {k v : String}
    (hm : mapValues m (fun s => sysIn s = false)) (h : mget m k = .ok v) :
    sysIn v = false :=
  hm _ (mlookup_mem (mget_ok_iff.mp h))

theorem mget_ok_pageVal {m : Smap} {k v : String}
    (hm : goodPageVals m) (h : mget m k = .ok v) :
    v ≠ "" ∧ v ≠ "END_FLOW" ∧ v ≠ "END_SESSION" ∧ v ≠ "CURRENT_PAGE" :=
  hm _ (mlookup_mem (mget_ok_iff.mp h))

theorem cpdSourceTarget_ok_ne {pm : Smap} {tp u : String}
    (hm : goodPageVals pm) (h : cpdSourceTarget pm tp = .ok u) : u ≠ "" := by
  unfold cpdSourceTarget at h
  split at h
  · obtain ⟨rfl⟩ := h; decide
  · split at h
    · obtain ⟨rfl⟩ := h; decide
    · split at h
      · obtain ⟨rfl⟩ := h; decide
      · exact (mget_ok_pageVal hm h).1

theorem target_comp {flowB : String} {pmA pmB : Smap} {tp u v : String}
    (hm : goodPageVals pmA) (h1 : cpdSourceTarget pmA tp = .ok u)
    (h2 : cpdDestTarget flowB pmB u = .ok v) :
    rtTarget flowB pmA pmB tp = .ok v := by
  unfold cpdSourceTarget at h1
  unfold rtTarget
  split at h1
  · obtain ⟨rfl⟩ := h1
    rename_i hseg
    rw [if_pos hseg]
    unfold cpdDestTarget at h2
    simpa using h2
  · split at h1
    · obtain ⟨rfl⟩ := h1
      rename_i hs1 hseg
      rw [if_neg hs1, if_pos hseg]
      unfold cpdDestTarget at h2
      simpa using h2
    · split at h1
      · obtain ⟨rfl⟩ := h1
        rename_i hs1 hs2 hseg
        rw [if_neg hs1, if_neg hs2, if_pos hseg]
        unfold cpdDestTarget at h2
        simpa using h2
      · rename_i hs1 hs2 hs3
        rw [if_neg hs1, if_neg hs2, if_neg hs3]
        obtain ⟨hne, hf, hs, hc⟩ := mget_ok_pageVal hm h1
        unfold cpdDestTarget at h2
        rw [if_neg hf, if_neg hs, if_neg hc] at h2
        unfold rtLookup
        rw [h1, bindE_ok, h2]

theorem ebind_ok_iff {α β : Type} {e : Except String α}
    {f : α → Except String β} {b : β} :
    e.bind f = .ok b ↔ ∃ a, e = .ok a ∧ f a = .ok b := by
  cases e <;> simp [Except.bind]

theorem cpdTRrest_comp {imA imB wmA wmB : Smap} {x y z : TransitionRoute}
    (hI : mapValues imA (· ≠ "")) (hW : mapValues wmA (· ≠ ""))
    (h1 : cpdTRrest imA wmA x = .ok y) (h2 : cpdTRrest imB wmB y = .ok z) :
    rtTRrest imA imB wmA wmB x = .ok z := by
  obtain ⟨ti, tc, tp, ⟨tww⟩⟩ := x
  rw [cpdTRrest_mk] at h1
  rw [rtTRrest_mk]
  by_cases hti : ti = ""
  · rw [if_pos hti] at h1 ⊢
    by_cases hcw : tc = "" ∨ tww = ""
    · rw [if_pos hcw] at h1 ⊢
      obtain ⟨rfl⟩ := h1
      rw [cpdTRrest_mk, if_pos hti, if_pos hcw] at h2
      exact h2
    · rw [if_neg hcw] at h1 ⊢
      rw [emap_ok_iff] at h1
      obtain ⟨w, hwA, rfl⟩ := h1
      have hwne : w ≠ "" := mget_ok_ne hW hwA
      push_neg at hcw
      rw [cpdTRrest_mk, if_pos hti, if_neg (by simp [hcw.1, hwne]),
        emap_ok_iff] at h2
      obtain ⟨w2, hwB, rfl⟩ := h2
      rw [emap_ok_iff]
      exact ⟨w2, by rw [rtLookup, hwA, bindE_ok, hwB], rfl⟩
  · rw [if_neg hti] at h1 ⊢
    rw [ebind_ok_iff] at h1
    obtain ⟨i, hiA, h1⟩ := h1
    have hine : i ≠ "" := mget_ok_ne hI hiA
    by_cases hw : tww = ""
    · rw [if_pos hw] at h1
      obtain ⟨rfl⟩ := h1
      rw [cpdTRrest_mk, if_neg hine, ebind_ok_iff] at h2
      obtain ⟨i2, hiB, h2⟩ := h2
      rw [if_pos hw] at h2
      obtain ⟨rfl⟩ := h2
      rw [ebind_ok_iff]
      refine ⟨i2, by rw [rtLookup, hiA, bindE_ok, hiB], ?_⟩
      rw [if_pos hw]
    · rw [if_neg hw, emap_ok_iff] at h1
      obtain ⟨w, hwA, rfl⟩ := h1
      have hwne : w ≠ "" := mget_ok_ne hW hwA
      rw [cpdTRrest_mk, if_neg hine, ebind_ok_iff] at h2
      obtain ⟨i2, hiB, h2⟩ := h2
      rw [if_neg hwne, emap_ok_iff] at h2
      obtain ⟨w2, hwB, rfl⟩ := h2
      rw [ebind_ok_iff]
      refine ⟨i2, by rw [rtLookup, hiA, bindE_ok, hiB], ?_⟩
      rw [if_neg hw, emap_ok_iff]
      exact ⟨w2, by rw [rtLookup, hwA, bindE_ok, hwB], rfl⟩

theorem cpdTRrest_settarget (im wm : Smap) (tr : TransitionRoute) (t : String) :
    cpdTRrest im wm { tr with target_page := t } =
      (cpdTRrest im wm tr).map (fun q => { q with target_page := t }) := by
  obtain ⟨ti, tc, tp, ⟨tww⟩⟩ := tr
  unfold cpdTRrest
  by_cases hti : ti = "" <;> by_cases hc : tc = "" <;> by_cases hw : tww = "" <;>
    cases h1 : mget im ti <;> cases h2 : mget wm tww <;>
      simp [hti, hc, hw, h1, h2, bindE_ok, bindE_error, pureE, Except.map]

theorem cpdTRrest_shape {im wm : Smap} {ti tc tp tww : String}
    {q : TransitionRoute}
    (h : cpdTRrest im wm ⟨ti, tc, tp, ⟨tww⟩⟩ = .ok q) :
    ∃ qi qw, q = ⟨qi, tc, tp, ⟨qw⟩⟩ := by
  rw [cpdTRrest_mk] at h
  split at h
  · split at h
    · obtain ⟨rfl⟩ := h
      exact ⟨ti, tww, rfl⟩
    · rw [emap_ok_iff] at h
      obtain ⟨w, _, rfl⟩ := h
      exact ⟨ti, w, rfl⟩
  · rw [ebind_ok_iff] at h
    obtain ⟨i, _, h⟩ := h
    split at h
    · obtain ⟨rfl⟩ := h
      exact ⟨i, tww, rfl⟩
    · rw [emap_ok_iff] at h
      obtain ⟨w, _, rfl⟩ := h
      exact ⟨i, w, rfl⟩

theorem cpdTR_comp {flowB : String} {imA imB wmA wmB pmA pmB : Smap}
    {tr q r : TransitionRoute}
    (hP : goodPageVals pmA) (hI : mapValues imA (· ≠ ""))
    (hW : mapValues wmA (· ≠ ""))
    (h1 : cpdSourceTR imA wmA pmA tr = .ok q)
    (h2 : cpdDestTR flowB imB wmB pmB q = .ok r) :
    rtTR flowB imA imB wmA wmB pmA pmB tr = .ok r := by
  obtain ⟨ti, tc, tp, ⟨tww⟩⟩ := tr
  rw [cpdSourceTR_mk] at h1
  rw [rtTR_mk]
  by_cases htp : tp = ""
  · rw [if_pos htp] at h1 ⊢
    obtain ⟨qi, qw, rfl⟩ := cpdTRrest_shape h1
    rw [cpdDestTR_mk, if_pos htp] at h2
    exact cpdTRrest_comp hI hW h1 h2
  · rw [if_neg htp] at h1 ⊢
    rw [ebind_ok_iff] at h1
    obtain ⟨u, hu, h1⟩ := h1
    have hune : u ≠ "" := cpdSourceTarget_ok_ne hP hu
    obtain ⟨qi, qw, rfl⟩ := cpdTRrest_shape h1
    rw [cpdDestTR_mk, if_neg hune, ebind_ok_iff] at h2
    obtain ⟨v, hv, h2⟩ := h2
    have h1' : cpdTRrest imA wmA ⟨ti, tc, v, ⟨tww⟩⟩ =
        .ok ⟨qi, tc, v, ⟨qw⟩⟩ := by
      have hst := cpdTRrest_settarget imA wmA ⟨ti, tc, v, ⟨tww⟩⟩ u
      simp only [] at hst
      rw [hst, emap_ok_iff] at h1
      obtain ⟨q', hq', hq⟩ := h1
      obtain ⟨qi', qw', rfl⟩ := cpdTRrest_shape hq'
      simp only [TransitionRoute.mk.injEq, Fulfillment.mk.injEq] at hq
      obtain ⟨rfl, -, -, rfl⟩ := hq
      exact hq'
    rw [ebind_ok_iff]
    exact ⟨v, target_comp hP hu hv, cpdTRrest_comp hI hW h1' h2⟩

theorem optTarget_comp {flowB : String} {pmA pmB : Smap} {tp u v : String}
    (hP : goodPageVals pmA)
    (h1 : (if tp = "" then .ok tp else cpdSourceTarget pmA tp) = .ok u)
    (h2 : (if u = "" then .ok u else cpdDestTarget flowB pmB u) = .ok v) :
    (if tp = "" then .ok tp else rtTarget flowB pmA pmB tp) = .ok v := by
  by_cases htp : tp = ""
  · rw [if_pos htp] at h1 ⊢
    obtain ⟨rfl⟩ := h1
    rw [if_pos htp] at h2
    exact h2
  · rw [if_neg htp] at h1 ⊢
    have hune : u ≠ "" := cpdSourceTarget_ok_ne hP h1
    rw [if_neg hune] at h2
    exact target_comp hP h1 h2

theorem optWebhook_comp {wmA wmB : Smap} {tww w w2 : String}
    (hW : mapValues wmA (· ≠ ""))
    (h1 : (if tww = "" then .ok tww else mget wmA tww) = .ok w)
    (h2 : (if w = "" then .ok w else mget wmB w) = .ok w2) :
    (if tww = "" then .ok tww else rtLookup wmA wmB tww) = .ok w2 := by
  by_cases hw : tww = ""
  · rw [if_pos hw] at h1 ⊢
    obtain ⟨rfl⟩ := h1
    rw [if_pos hw] at h2
    exact h2
  · rw [if_neg hw] at h1 ⊢
    have hwne : w ≠ "" := mget_ok_ne hW h1
    rw [if_neg hwne] at h2
    rw [rtLookup, h1, bindE_ok]
    exact h2

theorem cpdEH_comp {flowB : String} {wmA wmB pmA pmB : Smap}
    {h q r : EventHandler}
    (hP : goodPageVals pmA) (hW : mapValues wmA (· ≠ ""))
    (h1 : cpdSourceEH wmA pmA h = .ok q)
    (h2 : cpdDestEH flowB wmB pmB q = .ok r) :
    rtEH flowB wmA wmB pmA pmB h = .ok r := by
  obtain ⟨tp, ⟨tww⟩⟩ := h
  rw [cpdSourceEH_mk, ebind_ok_iff] at h1
  obtain ⟨u, hu, h1⟩ := h1
  by_cases hw : tww = ""
  · rw [if_pos hw] at h1
    obtain ⟨rfl⟩ := h1
    rw [cpdDestEH_mk, ebind_ok_iff] at h2
    obtain ⟨v, hv, h2⟩ := h2
    rw [if_pos hw] at h2
    obtain ⟨rfl⟩ := h2
    rw [rtEH_mk, ebind_ok_iff]
    exact ⟨v, optTarget_comp hP hu hv, by rw [if_pos hw]⟩
  · rw [if_neg hw, emap_ok_iff] at h1
    obtain ⟨w, hwA, rfl⟩ := h1
    have hwne : w ≠ "" := mget_ok_ne hW hwA
    rw [cpdDestEH_mk, ebind_ok_iff] at h2
    obtain ⟨v, hv, h2⟩ := h2
    rw [if_neg hwne, emap_ok_iff] at h2
    obtain ⟨w2, hwB, rfl⟩ := h2
    rw [rtEH_mk, ebind_ok_iff]
    refine ⟨v, optTarget_comp hP hu hv, ?_⟩
    rw [if_neg hw, emap_ok_iff]
    exact ⟨w2, by rw [rtLookup, hwA, bindE_ok, hwB], rfl⟩

theorem cpdReprompt_comp {flowB : String} {wmA wmB pmA pmB : Smap}
    {h q r : EventHandler}
    (hP : goodPageVals pmA) (hW : mapValues wmA (· ≠ ""))
    (h1 : cpdSourceReprompt wmA pmA h = .ok q)
    (h2 : cpdDestReprompt flowB wmB pmB q = .ok r) :
    rtReprompt flowB wmA wmB pmA pmB h = .ok r := by
  obtain ⟨tp, ⟨tww⟩⟩ := h
  rw [cpdSourceReprompt_mk, ebind_ok_iff] at h1
  obtain ⟨w, hwA, h1⟩ := h1
  by_cases htp : tp = ""
  · rw [if_pos htp] at h1
    obtain ⟨rfl⟩ := h1
    rw [cpdDestReprompt_mk, ebind_ok_iff] at h2
    obtain ⟨w2, hwB, h2⟩ := h2
    rw [if_pos htp] at h2
    obtain ⟨rfl⟩ := h2
    rw [rtReprompt_mk, ebind_ok_iff]
    exact ⟨w2, optWebhook_comp hW hwA hwB, by rw [if_pos htp]⟩
  · rw [if_neg htp, emap_ok_iff] at h1
    obtain ⟨u, hu, rfl⟩ := h1
    have hune : u ≠ "" := cpdSourceTarget_ok_ne hP hu
    rw [cpdDestReprompt_mk, ebind_ok_iff] at h2
    obtain ⟨w2, hwB, h2⟩ := h2
    rw [if_neg hune, emap_ok_iff] at h2
    obtain ⟨v, hv, rfl⟩ := h2
    rw [rtReprompt_mk, ebind_ok_iff]
    refine ⟨w2, optWebhook_comp hW hwA hwB, ?_⟩
    rw [if_neg htp, emap_ok_iff]
    exact ⟨v, target_comp hP hu hv, rfl⟩

theorem cpdSourceParam_mk (em wm pm : Smap) (dn et ipfw : String)
    (reh0 : List EventHandler) :
    cpdSourceParam em wm pm ⟨dn, et, ⟨⟨ipfw⟩, reh0⟩⟩ =
      (if ipfw = "" then .ok ipfw else mget wm ipfw).bind fun w =>
      (mapE (cpdSourceReprompt wm pm) reh0).bind fun reh =>
      (cpdEntity em et).map fun et2 => ⟨dn, et2, ⟨⟨w⟩, reh⟩⟩ := by
  unfold cpdSourceParam
  by_cases hw : ipfw = "" <;> cases h1 : mget wm ipfw <;>
    cases h2 : mapE (cpdSourceReprompt wm pm) reh0 <;>
      cases h3 : cpdEntity em et <;>
        simp [hw, h1, h2, h3, bindE_ok, bindE_error, pureE, Except.map,
          Except.bind]

theorem cpdDestParam_mk (flowId : String) (em wm pm : Smap)
    (dn et ipfw : String) (reh0 : List EventHandler) :
    cpdDestParam flowId em wm pm ⟨dn, et, ⟨⟨ipfw⟩, reh0⟩⟩ =
      (if ipfw = "" then .ok ipfw else mget wm ipfw).bind fun w =>
      (mapE (cpdDestReprompt flowId wm pm) reh0).bind fun reh =>
      (cpdEntity em et).map fun et2 => ⟨dn, et2, ⟨⟨w⟩, reh⟩⟩ := by
  unfold cpdDestParam
  by_cases hw : ipfw = "" <;> cases h1 : mget wm ipfw <;>
    cases h2 : mapE (cpdDestReprompt flowId wm pm) reh0 <;>
      cases h3 : cpdEntity em et <;>
        simp [hw, h1, h2, h3, bindE_ok, bindE_error, pureE, Except.map,
          Except.bind]

theorem rtParam_mk (flowB : String) (emA emB wmA wmB pmA pmB : Smap)
    (dn et ipfw : String) (reh0 : List EventHandler) :
    rtParam flowB emA emB wmA wmB pmA pmB ⟨dn, et, ⟨⟨ipfw⟩, reh0⟩⟩ =
      (if ipfw = "" then .ok ipfw else rtLookup wmA wmB ipfw).bind fun w =>
      (mapE (rtReprompt flowB wmA wmB pmA pmB) reh0).bind fun reh =>
      (if sysIn et then .ok et else rtLookup emA emB et).map fun et2 =>
        ⟨dn, et2, ⟨⟨w⟩, reh⟩⟩ := by
  unfold rtParam
  by_cases hw : ipfw = "" <;> by_cases hs : sysIn et <;>
    cases h1 : rtLookup wmA wmB ipfw <;>
      cases h2 : mapE (rtReprompt flowB wmA wmB pmA pmB) reh0 <;>
        cases h3 : rtLookup emA emB et <;>
          simp [hw, hs, h1, h2, h3, bindE_ok, bindE_error, pureE, Except.map,
            Except.bind]

theorem entity_comp {emA emB : Smap} {et n z : String}
    (hE : mapValues emA (fun s => sysIn s = false))
    (h1 : cpdEntity emA et = .ok n) (h2 : cpdEntity emB n = .ok z) :
    (if sysIn et then .ok et else rtLookup emA emB et) = .ok z := by
  unfold cpdEntity at h1
  by_cases hs : sysIn et
  · rw [if_pos hs] at h1 ⊢
    obtain ⟨rfl⟩ := h1
    unfold cpdEntity at h2
    rw [if_pos hs] at h2
    exact h2
  · rw [if_neg hs] at h1 ⊢
    have hns : sysIn n = false := mget_ok_nosys hE h1
    unfold cpdEntity at h2
    rw [if_neg (by simp [hns])] at h2
    rw [rtLookup, h1, bindE_ok]
    exact h2

theorem cpdParam_comp {flowB : String} {emA emB wmA wmB pmA pmB : Smap}
    {p q r : FormParameter}
    (hP : goodPageVals pmA) (hW : mapValues wmA (· ≠ ""))
    (hE : mapValues emA (fun s => sysIn s = false))
    (h1 : cpdSourceParam emA wmA pmA p = .ok q)
    (h2 : cpdDestParam flowB emB wmB pmB q = .ok r) :
    rtParam flowB emA emB wmA wmB pmA pmB p = .ok r := by
  obtain ⟨dn, et, ⟨⟨ipfw⟩, reh0⟩⟩ := p
  rw [cpdSourceParam_mk, ebind_ok_iff] at h1
  obtain ⟨w, hw1, h1⟩ := h1
  rw [ebind_ok_iff] at h1
  obtain ⟨reh, hreh1, h1⟩ := h1
  rw [emap_ok_iff] at h1
  obtain ⟨n, hn1, rfl⟩ := h1
  rw [cpdDestParam_mk, ebind_ok_iff] at h2
  obtain ⟨w2, hw2, h2⟩ := h2
  rw [ebind_ok_iff] at h2
  obtain ⟨reh2, hreh2, h2⟩ := h2
  rw [emap_ok_iff] at h2
  obtain ⟨z, hn2, rfl⟩ := h2
  rw [rtParam_mk, ebind_ok_iff]
  refine ⟨w2, optWebhook_comp hW hw1 hw2, ?_⟩
  rw [ebind_ok_iff]
  refine ⟨reh2, mapE_comp (fun x y z hx hy => cpdReprompt_comp hP hW hx hy)
    hreh1 hreh2, ?_⟩
  rw [emap_ok_iff]
  exact ⟨z, entity_comp hE hn1 hn2, rfl⟩

theorem cpdSourcePage_mk (im em wm pm rm : Smap) (nm dn efw : String)
    (trs0 : List TransitionRoute) (ehs0 : List EventHandler)
    (ps0 : List FormParameter) (rgs0 : List String) :
    cpdSourcePage im em wm pm rm ⟨nm, dn, ⟨efw⟩, trs0, ehs0, ps0, rgs0⟩ =
      (if efw = "" then .ok efw else mget wm efw).bind fun ew =>
      (mapE (cpdSourceTR im wm pm) trs0).bind fun trs =>
      (mapE (cpdSourceEH wm pm) ehs0).bind fun ehs =>
      (mapE (cpdSourceParam em wm pm) ps0).bind fun ps =>
      (mapE (mget rm) rgs0).map fun rgs =>
        ⟨nm, dn, ⟨ew⟩, trs, ehs, ps, rgs⟩ := by
  unfold cpdSourcePage
  by_cases hw : efw = "" <;> cases h1 : mget wm efw <;>
    cases h2 : mapE (cpdSourceTR im wm pm) trs0 <;>
      cases h3 : mapE (cpdSourceEH wm pm) ehs0 <;>
        cases h4 : mapE (cpdSourceParam em wm pm) ps0 <;>
          cases h5 : mapE (mget rm) rgs0 <;>
            simp [hw, h1, h2, h3, h4, h5, bindE_ok, bindE_error, pureE,
              Except.map, Except.bind]

theorem cpdDestPage_mk (flowId : String) (im em wm pm rm : Smap)
    (nm dn efw : String) (trs0 : List TransitionRoute)
    (ehs0 : List EventHandler) (ps0 : List FormParameter)
    (rgs0 : List String) :
    cpdDestPage flowId im em wm pm rm ⟨nm, dn, ⟨efw⟩, trs0, ehs0, ps0, rgs0⟩ =
      (mget pm dn).bind fun nm2 =>
      (if efw = "" then .ok efw else mget wm efw).bind fun ew =>
      (mapE (cpdDestTR flowId im wm pm) trs0).bind fun trs =>
      (mapE (cpdDestEH flowId wm pm) ehs0).bind fun ehs =>
      (mapE (cpdDestParam flowId em wm pm) ps0).bind fun ps =>
      (mapE (mget rm) rgs0).map fun rgs =>
        ⟨nm2, dn, ⟨ew⟩, trs, ehs, ps, rgs⟩ := by
  unfold cpdDestPage
  by_cases hw : efw = "" <;> cases h0 : mget pm dn <;> cases h1 : mget wm efw <;>
    cases h2 : mapE (cpdDestTR flowId im wm pm) trs0 <;>
      cases h3 : mapE (cpdDestEH flowId wm pm) ehs0 <;>
        cases h4 : mapE (cpdDestParam flowId em wm pm) ps0 <;>
          cases h5 : mapE (mget rm) rgs0 <;>
            simp [hw, h0, h1, h2, h3, h4, h5, bindE_ok, bindE_error, pureE,
              Except.map, Except.bind]

theorem rtPage_mk (flowB : String) (imA imB emA emB wmA wmB pmA pmB rmA rmB :
    Smap) (nm dn efw : String) (trs0 : List TransitionRoute)
    (ehs0 : List EventHandler) (ps0 : List FormParameter)
    (rgs0 : List String) :
    rtPage flowB imA imB emA emB wmA wmB pmA pmB rmA rmB
        ⟨nm, dn, ⟨efw⟩, trs0, ehs0, ps0, rgs0⟩ =
      (mget pmB dn).bind fun nm2 =>
      (if efw = "" then .ok efw else rtLookup wmA wmB efw).bind fun ew =>
      (mapE (rtTR flowB imA imB wmA wmB pmA pmB) trs0).bind fun trs =>
      (mapE (rtEH flowB wmA wmB pmA pmB) ehs0).bind fun ehs =>
      (mapE (rtParam flowB emA emB wmA wmB pmA pmB) ps0).bind fun ps =>
      (mapE (rtLookup rmA rmB) rgs0).map fun rgs =>
        ⟨nm2, dn, ⟨ew⟩, trs, ehs, ps, rgs⟩ := by
  unfold rtPage
  by_cases hw : efw = "" <;> cases h0 : mget pmB dn <;>
    cases h1 : rtLookup wmA wmB efw <;>
      cases h2 : mapE (rtTR flowB imA imB wmA wmB pmA pmB) trs0 <;>
        cases h3 : mapE (rtEH flowB wmA wmB pmA pmB) ehs0 <;>
          cases h4 : mapE (rtParam flowB emA emB wmA wmB pmA pmB) ps0 <;>
            cases h5 : mapE (rtLookup rmA rmB) rgs0 <;>
              simp [hw, h0, h1, h2, h3, h4, h5, bindE_ok, bindE_error, pureE,
                Except.map, Except.bind]

theorem cpdPage_comp {flowB : String}
    {imA imB emA emB wmA wmB pmA pmB rmA rmB : Smap} {p q r : Page}
    (hP : goodPageVals pmA) (hI : mapValues imA (· ≠ ""))
    (hW : mapValues wmA (· ≠ ""))
    (hE : mapValues emA (fun s => sysIn s = false))
    (h1 : cpdSourcePage imA emA wmA pmA rmA p = .ok q)
    (h2 : cpdDestPage flowB imB emB wmB pmB rmB q = .ok r) :
    rtPage flowB imA imB emA emB wmA wmB pmA pmB rmA rmB p = .ok r := by
  obtain ⟨nm, dn, ⟨efw⟩, trs0, ehs0, ps0, rgs0⟩ := p
  rw [cpdSourcePage_mk, ebind_ok_iff] at h1
  obtain ⟨ew, hew1, h1⟩ := h1
  rw [ebind_ok_iff] at h1
  obtain ⟨trs, htrs1, h1⟩ := h1
  rw [ebind_ok_iff] at h1
  obtain ⟨ehs, hehs1, h1⟩ := h1
  rw [ebind_ok_iff] at h1
  obtain ⟨ps, hps1, h1⟩ := h1
  rw [emap_ok_iff] at h1
  obtain ⟨rgs, hrgs1, rfl⟩ := h1
  rw [cpdDestPage_mk, ebind_ok_iff] at h2
  obtain ⟨nm2, hnm2, h2⟩ := h2
  rw [ebind_ok_iff] at h2
  obtain ⟨ew2, hew2, h2⟩ := h2
  rw [ebind_ok_iff] at h2
  obtain ⟨trs2, htrs2, h2⟩ := h2
  rw [ebind_ok_iff] at h2
  obtain ⟨ehs2, hehs2, h2⟩ := h2
  rw [ebind_ok_iff] at h2
  obtain ⟨ps2, hps2, h2⟩ := h2
  rw [emap_ok_iff] at h2
  obtain ⟨rgs2, hrgs2, rfl⟩ := h2
  rw [rtPage_mk, ebind_ok_iff]
  refine ⟨nm2, hnm2, ?_⟩
  rw [ebind_ok_iff]
  refine ⟨ew2, optWebhook_comp hW hew1 hew2, ?_⟩
  rw [ebind_ok_iff]
  refine ⟨trs2, mapE_comp (fun x y z hx hy => cpdTR_comp hP hI hW hx hy)
    htrs1 htrs2, ?_⟩
  rw [ebind_ok_iff]
  refine ⟨ehs2, mapE_comp (fun x y z hx hy => cpdEH_comp hP hW hx hy)
    hehs1 hehs2, ?_⟩
  rw [ebind_ok_iff]
  refine ⟨ps2, mapE_comp (fun x y z hx hy => cpdParam_comp hP hW hE hx hy)
    hps1 hps2, ?_⟩
  rw [emap_ok_iff]
  refine ⟨rgs2, mapE_comp (fun x y z hx hy => ?_) hrgs1 hrgs2, rfl⟩
  rw [rtLookup, hx, bindE_ok]
  exact hy


/-- Claim C4: a transition route whose intent identifier is absent from the
relevant intents map makes the rewrite fail with a key-lookup error naming
that identifier — in the page rewriter's source branch (provided the
target-page step itself does not fail first) and in the orchestrator's
route-group paste step (where the intent lookup comes first). -/
theorem missing_intent_key_error
    (im wm pm sIm dIm sWm dWm sPm dPm : Smap) (df : String)
    (tr : TransitionRoute) :
    (tr.intent ≠ "" → mlookup im tr.intent = none →
      (tr.target_page = "" ∨ ∃ u, cpdSourceTarget pm tr.target_page = .ok u) →
      cpdSourceTR im wm pm tr = .error tr.intent) ∧
    (mlookup sIm tr.intent = none →
      cprTR sIm dIm sWm dWm sPm dPm df tr = .error tr.intent) := by
  obtain ⟨ti, tc, tp, ⟨tww⟩⟩ := tr
  constructor
  · intro hi hnone htgt
    have herr : mget im ti = .error ti := by
      unfold mget
      rw [hnone]
    by_cases htp : tp = ""
    · rw [cpdSourceTR_mk, if_pos htp, cpdTRrest_mk, if_neg hi, herr]
      rfl
    · rcases htgt with h | ⟨u, hu⟩
      · exact absurd h htp
      · rw [cpdSourceTR_mk, if_neg htp, hu]
        show cpdTRrest im wm ⟨ti, tc, u, ⟨tww⟩⟩ = .error ti
        rw [cpdTRrest_mk, if_neg hi, herr]
        rfl
  · intro hnone
    have herr : mget sIm ti = .error ti := by
      unfold mget
      rw [hnone]
    unfold cprTR
    rw [herr]
    rfl

/-- Claim C5: an entity-type reference containing the substring `sys.` is
returned unchanged by the rewriter in both directions, whatever the entities
map holds: the shared entity step passes it through, and both the
source-branch and the destination-branch form-parameter rewrites leave it
untouched. -/
theorem builtin_entity_passthrough
    (em wm pm : Smap) (flowId et : String) (p q : FormParameter) :
    (sysIn et = true → cpdEntity em et = .ok et) ∧
    (sysIn p.entity_type = true → cpdSourceParam em wm pm p = .ok q →
      q.entity_type = p.entity_type) ∧
    (sysIn p.entity_type = true → cpdDestParam flowId em wm pm p = .ok q →
      q.entity_type = p.entity_type) := by
  refine ⟨fun hs => ?_, fun hs h => ?_, fun hs h => ?_⟩
  · unfold cpdEntity
    rw [if_pos hs]
  · obtain ⟨dn, et0, ⟨⟨ipfw⟩, reh0⟩⟩ := p
    rw [cpdSourceParam_mk, ebind_ok_iff] at h
    obtain ⟨w, -, h⟩ := h
    rw [ebind_ok_iff] at h
    obtain ⟨reh, -, h⟩ := h
    rw [emap_ok_iff] at h
    obtain ⟨et2, het2, rfl⟩ := h
    unfold cpdEntity at het2
    rw [if_pos hs] at het2
    obtain ⟨rfl⟩ := het2
    rfl
  · obtain ⟨dn, et0, ⟨⟨ipfw⟩, reh0⟩⟩ := p
    rw [cpdDestParam_mk, ebind_ok_iff] at h
    obtain ⟨w, -, h⟩ := h
    rw [ebind_ok_iff] at h
    obtain ⟨reh, -, h⟩ := h
    rw [emap_ok_iff] at h
    obtain ⟨et2, het2, rfl⟩ := h
    unfold cpdEntity at het2
    rw [if_pos hs] at het2
    obtain ⟨rfl⟩ := het2
    rfl

/-- Claim C6: with source maps `{i1 ↦ Order Pizza}` / `{w1 ↦ OrderWebhook}`
and destination reverse maps `{Order Pizza ↦ i9}` / `{OrderWebhook ↦ w9}`,
the orchestrator's two-hop route rewrite sends the route
`{intent: i1, webhook: w1}` to `{intent: i9, webhook: w9}`. -/
theorem concrete_two_hop_rewrite :
    cprTR [("i1", "Order Pizza")] [("Order Pizza", "i9")]
      [("w1", "OrderWebhook")] [("OrderWebhook", "w9")] [] []
      "destFlow" ⟨"i1", "", "", ⟨"w1"⟩⟩ =
      .ok ⟨"i9", "", "", ⟨"w9"⟩⟩ := by
  rfl

/-- Claim C9: the route-group paste step looks the intent up unconditionally,
so a condition-triggered route (empty intent field) makes the rewrite raise a
key-lookup failure on the empty string unless `""` is a key of the source
intents map; consequently a route group containing such a route fails to
rewrite (before any creation call). -/
theorem route_group_unconditional_intent_lookup
    (sIm dIm sWm dWm sPm dPm : Smap) (df : String) (tr : TransitionRoute)
    (rg : RouteGroup) :
    (tr.intent = "" → mlookup sIm "" = none →
      cprTR sIm dIm sWm dWm sPm dPm df tr = .error "") ∧
    ((∃ tr' ∈ rg.transition_routes, tr'.intent = "") →
      mlookup sIm "" = none →
      ∃ e, cprRG sIm dIm sWm dWm sPm dPm df rg = .error e) := by
  constructor
  · intro hi hnone
    have herr : mget sIm tr.intent = .error "" := by
      unfold mget
      rw [hi, hnone]
    unfold cprTR
    rw [herr]
    rfl
  · rintro ⟨tr', hmem, hi⟩ hnone
    have herr : cprTR sIm dIm sWm dWm sPm dPm df tr' = .error "" := by
      have herr' : mget sIm tr'.intent = .error "" := by
        unfold mget
        rw [hi, hnone]
      unfold cprTR
      rw [herr']
      rfl
    obtain ⟨e, he⟩ := mapE_error_of_mem hmem herr
    exact ⟨e, by unfold cprRG; rw [he]; rfl⟩

/-- Claim C10: `get_page_dependencies` derives the flow identifier from the
first page only (first 8 path segments of `obj_list[0].name`) and consults the
route-group listing only at that flow: the result is invariant under any
change of the listing away from that flow, and the empty input list fails
(an `IndexError`, modelled as `none`) instead of returning an empty mapping. -/
theorem page_dependencies_first_page_flow
    (f g : String → List RouteGroup) (p : Page) (ps : List Page) :
    (get_page_dependencies f [] = none) ∧
    (f (strJoin "/" ((strSplit '/' p.name).take 8)) =
        g (strJoin "/" ((strSplit '/' p.name).take 8)) →
      get_page_dependencies f (p :: ps) = get_page_dependencies g (p :: ps)) := by
  constructor
  · rfl
  · intro h
    simp only [get_page_dependencies]
    rw [h]

/-- Claim C7: the rewriters operate on a deep copy only: in the store-passing
model, a successful `convert_page_dependencies` (resp.
`convert_start_page_dependencies`) leaves every pre-existing store cell —
in particular the input objects — unchanged, and returns only fresh
addresses.  (`get_page_dependencies` is embedded as a pure function of its
inputs: it performs no write at all.) -/
theorem converters_preserve_originals
    (agent_type : String) (im em wm pm rm : Smap) (flowId : String)
    (store : List Page) (addrs : List Nat) (store' : List Page)
    (outs : List Nat) (sstore : List StartPage) (addr : Nat)
    (sstore' : List StartPage) (out : Nat) :
    (convert_page_dependencies_st agent_type im em wm pm rm flowId store
        addrs = .ok (store', outs) →
      store'.take store.length = store ∧ ∀ a ∈ outs, store.length ≤ a) ∧
    (convert_start_page_dependencies_st agent_type im wm pm flowId sstore
        addr = .ok (sstore', out) →
      sstore'.take sstore.length = sstore ∧ sstore.length ≤ out) := by
  constructor
  · intro h
    unfold convert_page_dependencies_st at h
    rw [bind_ok_iff] at h
    obtain ⟨o, ho, hp⟩ := h
    rw [pureE, Except.ok.injEq, Prod.mk.injEq] at hp
    obtain ⟨rfl, rfl⟩ := hp
    refine ⟨List.take_left store o, fun a ha => ?_⟩
    rw [List.mem_range'] at ha
    obtain ⟨i, hi, rfl⟩ := ha
    omega
  · intro h
    unfold convert_start_page_dependencies_st at h
    rw [bind_ok_iff] at h
    obtain ⟨o, ho, hp⟩ := h
    rw [pureE, Except.ok.injEq, Prod.mk.injEq] at hp
    obtain ⟨rfl, rfl⟩ := hp
    exact ⟨List.take_left sstore [o], Nat.le_refl _⟩

/-- Claim C8: `convert_start_page_dependencies` translates only the start
page's transition routes (name and display name are untouched), recognises
exactly the sentinel set {END_FLOW, START_PAGE} — source direction: a target
path whose last segment is one of them becomes the bare token, any other
target goes through the pages map; destination direction: the bare token
becomes the flow id plus `/pages/` plus the token, any other target goes
through the reversed pages map — and otherwise applies the same per-route
translation as the page rewriter (the two route rewrites agree whenever no
target page is set). -/
theorem start_page_rewriter_spec
    (im wm pm : Smap) (flowId tp : String) (tr : TransitionRoute)
    (sp sp' sp'' : StartPage) :
    (lastSeg tp = "END_FLOW" → cspSourceTarget pm tp = .ok "END_FLOW") ∧
    (lastSeg tp = "START_PAGE" → cspSourceTarget pm tp = .ok "START_PAGE") ∧
    (lastSeg tp ≠ "END_FLOW" → lastSeg tp ≠ "START_PAGE" →
      cspSourceTarget pm tp = mget pm tp) ∧
    (cspDestTarget flowId pm "END_FLOW" = .ok (flowId ++ "/pages/END_FLOW")) ∧
    (cspDestTarget flowId pm "START_PAGE" =
      .ok (flowId ++ "/pages/START_PAGE")) ∧
    (tp ≠ "END_FLOW" → tp ≠ "START_PAGE" →
      cspDestTarget flowId pm tp = mget pm tp) ∧
    (tr.target_page = "" → cspSourceTR im wm pm tr = cpdSourceTR im wm pm tr) ∧
    (tr.target_page = "" →
      cspDestTR flowId im wm pm tr = cpdDestTR flowId im wm pm tr) ∧
    (convert_start_page_dependencies "source" im wm pm flowId sp = .ok sp' →
      sp'.name = sp.name ∧ sp'.display_name = sp.display_name) ∧
    (convert_start_page_dependencies "destination" im wm pm flowId sp =
        .ok sp'' →
      sp''.name = sp.name ∧ sp''.display_name = sp.display_name) := by
  refine ⟨fun h => ?_, fun h => ?_, fun h1 h2 => ?_, ?_, ?_, fun h1 h2 => ?_,
    fun h => ?_, fun h => ?_, fun h => ?_, fun h => ?_⟩
  · unfold cspSourceTarget
    rw [if_pos h]
  · unfold cspSourceTarget
    rw [if_neg (by rw [h]; decide), if_pos h]
  · unfold cspSourceTarget
    rw [if_neg h1, if_neg h2]
  · unfold cspDestTarget
    rw [if_pos rfl]
  · unfold cspDestTarget
    rw [if_neg (by decide), if_pos rfl]
  · unfold cspDestTarget
    rw [if_neg h1, if_neg h2]
  · obtain ⟨ti, tc, tp0, ⟨tww⟩⟩ := tr
    simp only at h
    rw [cspSourceTR_mk, cpdSourceTR_mk, if_pos h, if_pos h]
  · obtain ⟨ti, tc, tp0, ⟨tww⟩⟩ := tr
    simp only at h
    rw [cspDestTR_mk, cpdDestTR_mk, if_pos h, if_pos h]
  · unfold convert_start_page_dependencies at h
    rw [if_pos rfl, emap_ok_iff] at h
    obtain ⟨trs, -, rfl⟩ := h
    exact ⟨rfl, rfl⟩
  · unfold convert_start_page_dependencies at h
    rw [if_neg (by decide), if_pos rfl, emap_ok_iff] at h
    obtain ⟨trs, -, rfl⟩ := h
    exact ⟨rfl, rfl⟩

theorem sentinel3_ne_empty {tp : String}
    (hs : lastSeg tp = "END_FLOW" ∨ lastSeg tp = "END_SESSION" ∨
      lastSeg tp = "CURRENT_PAGE") : tp ≠ "" := by
  intro h
  subst h
  rcases hs with h | h | h <;> exact absurd h (by decide)

theorem srcTarget_sentinel (pm : Smap) {tp : String}
    (hs : lastSeg tp = "END_FLOW" ∨ lastSeg tp = "END_SESSION" ∨
      lastSeg tp = "CURRENT_PAGE") :
    cpdSourceTarget pm tp = .ok (lastSeg tp) := by
  unfold cpdSourceTarget
  rcases hs with h | h | h
  · rw [if_pos h, h]
  · rw [if_neg (by rw [h]; decide), if_pos h, h]
  · rw [if_neg (by rw [h]; decide), if_neg (by rw [h]; decide), if_pos h, h]

theorem destTarget_sentinel (flowId : String) (pm : Smap) {tp : String}
    (hs : tp = "END_FLOW" ∨ tp = "END_SESSION" ∨ tp = "CURRENT_PAGE") :
    cpdDestTarget flowId pm tp = .ok (flowId ++ "/pages/" ++ tp) := by
  unfold cpdDestTarget
  rcases hs with rfl | rfl | rfl
  · rw [if_pos rfl, String.append_assoc]
    rfl
  · rw [if_neg (by decide), if_pos rfl, String.append_assoc]
    rfl
  · rw [if_neg (by decide), if_neg (by decide), if_pos rfl,
      String.append_assoc]
    rfl

theorem bare_sentinel3_ne_empty {tp : String}
    (hs : tp = "END_FLOW" ∨ tp = "END_SESSION" ∨ tp = "CURRENT_PAGE") :
    tp ≠ "" := by
  rcases hs with rfl | rfl | rfl <;> decide

/-- Claim C2: sentinel preservation in `convert_page_dependencies`.  Source
direction: a target-page path whose last segment is END_FLOW, END_SESSION or
CURRENT_PAGE becomes the bare token — for any pages map, so it is never
looked up — in the target helper and hence in transition routes, event
handlers and reprompt event handlers.  Destination direction: the bare token
becomes exactly the destination flow identifier concatenated with `/pages/`
and the token, in the same three locations. -/
theorem sentinel_preservation
    (im wm pm : Smap) (flowId tp : String) (tr tr' trd : TransitionRoute)
    (eh eh' ehd : EventHandler) (rp rp' rpd : EventHandler) :
    (lastSeg tp = "END_FLOW" ∨ lastSeg tp = "END_SESSION" ∨
        lastSeg tp = "CURRENT_PAGE" →
      cpdSourceTarget pm tp = .ok (lastSeg tp)) ∧
    (tp = "END_FLOW" ∨ tp = "END_SESSION" ∨ tp = "CURRENT_PAGE" →
      cpdDestTarget flowId pm tp = .ok (flowId ++ "/pages/" ++ tp)) ∧
    (lastSeg tr.target_page = "END_FLOW" ∨
        lastSeg tr.target_page = "END_SESSION" ∨
        lastSeg tr.target_page = "CURRENT_PAGE" →
      cpdSourceTR im wm pm tr = .ok tr' →
      tr'.target_page = lastSeg tr.target_page) ∧
    (tr.target_page = "END_FLOW" ∨ tr.target_page = "END_SESSION" ∨
        tr.target_page = "CURRENT_PAGE" →
      cpdDestTR flowId im wm pm tr = .ok trd →
      trd.target_page = flowId ++ "/pages/" ++ tr.target_page) ∧
    (lastSeg eh.target_page = "END_FLOW" ∨
        lastSeg eh.target_page = "END_SESSION" ∨
        lastSeg eh.target_page = "CURRENT_PAGE" →
      cpdSourceEH wm pm eh = .ok eh' →
      eh'.target_page = lastSeg eh.target_page) ∧
    (eh.target_page = "END_FLOW" ∨ eh.target_page = "END_SESSION" ∨
        eh.target_page = "CURRENT_PAGE" →
      cpdDestEH flowId wm pm eh = .ok ehd →
      ehd.target_page = flowId ++ "/pages/" ++ eh.target_page) ∧
    (lastSeg rp.target_page = "END_FLOW" ∨
        lastSeg rp.target_page = "END_SESSION" ∨
        lastSeg rp.target_page = "CURRENT_PAGE" →
      cpdSourceReprompt wm pm rp = .ok rp' →
      rp'.target_page = lastSeg rp.target_page) ∧
    (rp.target_page = "END_FLOW" ∨ rp.target_page = "END_SESSION" ∨
        rp.target_page = "CURRENT_PAGE" →
      cpdDestReprompt flowId wm pm rp = .ok rpd →
      rpd.target_page = flowId ++ "/pages/" ++ rp.target_page) := by
  refine ⟨fun hs => srcTarget_sentinel pm hs,
    fun hs => destTarget_sentinel flowId pm hs,
    fun hs hok => ?_, fun hs hok => ?_, fun hs hok => ?_, fun hs hok => ?_,
    fun hs hok => ?_, fun hs hok => ?_⟩
  · obtain ⟨ti, tc, tp0, ⟨tww⟩⟩ := tr
    simp only at hs ⊢
    rw [cpdSourceTR_mk, if_neg (sentinel3_ne_empty hs),
      srcTarget_sentinel pm hs] at hok
    simp only [Except.bind] at hok
    obtain ⟨qi, qw, rfl⟩ := cpdTRrest_shape hok
    rfl
  · obtain ⟨ti, tc, tp0, ⟨tww⟩⟩ := tr
    simp only at hs ⊢
    rw [cpdDestTR_mk, if_neg (bare_sentinel3_ne_empty hs),
      destTarget_sentinel flowId pm hs] at hok
    simp only [Except.bind] at hok
    obtain ⟨qi, qw, rfl⟩ := cpdTRrest_shape hok
    rfl
  · obtain ⟨tp0, ⟨tww⟩⟩ := eh
    simp only at hs ⊢
    rw [cpdSourceEH_mk, if_neg (sentinel3_ne_empty hs),
      srcTarget_sentinel pm hs] at hok
    simp only [Except.bind] at hok
    split at hok
    · obtain ⟨rfl⟩ := hok
      rfl
    · rw [emap_ok_iff] at hok
      obtain ⟨w, -, rfl⟩ := hok
      rfl
  · obtain ⟨tp0, ⟨tww⟩⟩ := eh
    simp only at hs ⊢
    rw [cpdDestEH_mk, if_neg (bare_sentinel3_ne_empty hs),
      destTarget_sentinel flowId pm hs] at hok
    simp only [Except.bind] at hok
    split at hok
    · obtain ⟨rfl⟩ := hok
      rfl
    · rw [emap_ok_iff] at hok
      obtain ⟨w, -, rfl⟩ := hok
      rfl
  · obtain ⟨tp0, ⟨tww⟩⟩ := rp
    simp only at hs ⊢
    rw [cpdSourceReprompt_mk, ebind_ok_iff] at hok
    obtain ⟨w, -, hok⟩ := hok
    rw [if_neg (sentinel3_ne_empty hs), srcTarget_sentinel pm hs,
      emap_ok] at hok
    obtain ⟨rfl⟩ := hok
    rfl
  · obtain ⟨tp0, ⟨tww⟩⟩ := rp
    simp only at hs ⊢
    rw [cpdDestReprompt_mk, ebind_ok_iff] at hok
    obtain ⟨w, -, hok⟩ := hok
    rw [if_neg (bare_sentinel3_ne_empty hs),
      destTarget_sentinel flowId pm hs, emap_ok] at hok
    obtain ⟨rfl⟩ := hok
    rfl

theorem foldl_intents_append (rs : List TransitionRoute)
    (acc : PageDependencies) :
    rs.foldl (fun acc tr =>
        { acc with intents := acc.intents ++ [tr.intent] }) acc =
      { acc with intents := acc.intents ++ rs.map (·.intent) } := by
  induction rs generalizing acc with
  | nil => simp
  | cons tr rs ih =>
    obtain ⟨ws, is, es, rgs⟩ := acc
    simp [List.foldl_cons, ih, List.append_assoc]

/-- Claim C1 (amended): on a page with entry-fulfillment webhook `W`, one
intent-triggered route with intent `I` and trigger webhook `W2`, one form
parameter of non-system entity type `E`, and one route-group reference `R`
whose group carries the routes `rs`, the extractor returns
webhooks `{W}` (the intent route's webhook `W2` is not collected), intents
`{I} ∪ {intent fields of the routes of R}`, entities `{E}` and route groups
`{R}`. -/
theorem get_page_dependencies_scenario
    (lrg : String → List RouteGroup)
    (W W2 E I R nm dn rgdn pn tgt fw : String)
    (frs : List EventHandler) (rs : List TransitionRoute)
    (hW : W ≠ "") (hI : I ≠ "") (hE : sysIn E = false)
    (hlrg : lrg (strJoin "/" ((strSplit '/' nm).take 8)) = [⟨R, rgdn, rs⟩]) :
    get_page_dependencies lrg
      [⟨nm, dn, ⟨W⟩, [⟨I, "", tgt, ⟨W2⟩⟩], [], [⟨pn, E, ⟨⟨fw⟩, frs⟩⟩], [R]⟩] =
      some ⟨[W], (I :: rs.map (·.intent)).dedup, [E], [R]⟩ := by
  simp only [get_page_dependencies]
  rw [hlrg]
  simp only [List.foldl_cons, List.foldl_nil]
  unfold collectPage
  simp [hW, hI, hE, foldl_intents_append]

/-- Claim C1 counterexample: on the concrete scenario page (entry webhook
`wa`, intent route `ia` with trigger webhook `wb`, entity `ea`, route-group
reference `ra` whose group's single route has intent `ib`) the extractor does
NOT return `{webhooks:{wa,wb}, intents:{ib}, ...}` as the claim states: the
intent route's webhook `wb` is missing from the webhooks set and the page
route's intent `ia` is present in the intents set. -/
theorem get_page_dependencies_scenario_cex :
    get_page_dependencies cexRGs [cexPage] = some cexDeps ∧
    "wb" ∉ cexDeps.webhooks ∧ "ia" ∈ cexDeps.intents := by
  refine ⟨by decide, by decide, by decide⟩

/-- Claim C3: round trip.  If rewriting page `p` in the source direction with
agent A's maps succeeds with `q`, and rewriting `q` in the destination
direction with agent B's maps succeeds with `r` (so B's display names mirror
A's wherever `p` has references), and A's display names are well-formed
(page names non-empty and not sentinel tokens, intent/webhook names
non-empty, non-system entity names not containing `sys.`), then `r` is
exactly the one-pass two-hop rewrite of `p`: same structure, every reference
replaced by B's identifier for the display name that A's identifier had, and
sentinel targets rebuilt against B's destination flow. -/
theorem page_round_trip
    (flowA flowB : String) (imA imB emA emB wmA wmB pmA pmB rmA rmB : Smap)
    (p q r : Page)
    (hP : goodPageVals pmA) (hI : mapValues imA (· ≠ ""))
    (hW : mapValues wmA (· ≠ ""))
    (hE : mapValues emA (fun s => sysIn s = false))
    (h1 : convert_page_dependencies "source" imA emA wmA pmA rmA flowA [p] =
      .ok [q])
    (h2 : convert_page_dependencies "destination" imB emB wmB pmB rmB flowB
      [q] = .ok [r]) :
    rtPage flowB imA imB emA emB wmA wmB pmA pmB rmA rmB p = .ok r := by
  unfold convert_page_dependencies at h1 h2
  rw [if_pos rfl] at h1
  rw [if_neg (by decide), if_pos rfl] at h2
  rw [mapE_cons_ok_iff] at h1
  obtain ⟨y, ys, hy, hys, heq⟩ := h1
  simp only [mapE, Except.ok.injEq] at hys
  subst hys
  simp only [List.cons.injEq, and_true] at heq
  subst heq
  rw [mapE_cons_ok_iff] at h2
  obtain ⟨z, zs, hz, hzs, heq2⟩ := h2
  simp only [mapE, Except.ok.injEq] at hzs
  subst hzs
  simp only [List.cons.injEq, and_true] at heq2
  subst heq2
  exact cpdPage_comp hP hI hW hE hy hz

/-- Witness for the round-trip theorem at a concrete two-agent setup. -/
theorem page_round_trip_witness :
    rtPage "fB" [("i1","Int")] [("Int","i2")] [("e1","Ent")] [("Ent","e2")]
      [("w1","Hook")] [("Hook","w2")]
      [("fA/pages/x","X"),("fA/pages/y","Y")]
      [("X","fB/pages/x2"),("Y","fB/pages/y2")]
      [("rg1","RG")] [("RG","rg2")] pC3 = .ok rC3 :=
  page_round_trip "fA" "fB" [("i1","Int")] [("Int","i2")] [("e1","Ent")]
    [("Ent","e2")] [("w1","Hook")] [("Hook","w2")]
    [("fA/pages/x","X"),("fA/pages/y","Y")]
    [("X","fB/pages/x2"),("Y","fB/pages/y2")]
    [("rg1","RG")] [("RG","rg2")] pC3 qC3 rC3
    (by unfold goodPageVals mapValues; decide) (by unfold mapValues; decide)
    (by unfold mapValues; decide) (by unfold mapValues; decide)
    (by rfl) (by rfl)

/-- Witness for the amended dependency-extraction scenario. -/
theorem get_page_dependencies_scenario_witness :
    get_page_dependencies (fun _ => [⟨"R1", "G", [⟨"J", "", "", ⟨""⟩⟩]⟩])
      [⟨"n/a", "D", ⟨"W0"⟩, [⟨"I0", "", "", ⟨"W9"⟩⟩], [],
        [⟨"p", "E0", ⟨⟨""⟩, []⟩⟩], ["R1"]⟩] =
      some ⟨["W0"],
        ("I0" :: ([⟨"J", "", "", ⟨""⟩⟩] : List TransitionRoute).map
          (·.intent)).dedup, ["E0"], ["R1"]⟩ :=
  get_page_dependencies_scenario (fun _ => [⟨"R1", "G", [⟨"J", "", "", ⟨""⟩⟩]⟩])
    "W0" "W9" "E0" "I0" "R1" "n/a" "D" "G" "p" "" "" []
    [⟨"J", "", "", ⟨""⟩⟩] (by decide) (by decide) (by decide) rfl

/-- Witness for sentinel preservation at concrete targets. -/
theorem sentinel_preservation_witness :
    cpdSourceTarget [] "a/END_FLOW" = .ok "END_FLOW" ∧
    cpdDestTarget "fB" [] "END_SESSION" = .ok "fB/pages/END_SESSION" ∧
    (⟨"", "", "CURRENT_PAGE", ⟨""⟩⟩ : TransitionRoute).target_page =
      lastSeg "b/CURRENT_PAGE" := by
  refine ⟨?_, ?_, ?_⟩
  · exact (sentinel_preservation [] [] [] "fB" "a/END_FLOW" default default
      default default default default default default default).1 (by decide)
  · exact (sentinel_preservation [] [] [] "fB" "END_SESSION" default default
      default default default default default default default).2.1
      (by decide)
  · exact (sentinel_preservation [] [] [] "fB" "x"
      ⟨"", "", "b/CURRENT_PAGE", ⟨""⟩⟩ ⟨"", "", "CURRENT_PAGE", ⟨""⟩⟩
      default default default default default default default).2.2.1
      (by decide) (by rfl)

/-- Witness for the missing-intent-key failure. -/
theorem missing_intent_key_error_witness :
    cpdSourceTR [] [] [] ⟨"i0", "", "", ⟨""⟩⟩ = .error "i0" ∧
    cprTR [] [] [] [] [] [] "df" ⟨"i0", "", "", ⟨""⟩⟩ = .error "i0" := by
  have h := missing_intent_key_error [] [] [] [] [] [] [] [] [] "df"
    ⟨"i0", "", "", ⟨""⟩⟩
  exact ⟨h.1 (by decide) rfl (Or.inl rfl), h.2 rfl⟩

/-- Witness for the built-in entity passthrough. -/
theorem builtin_entity_passthrough_witness :
    sysIn "@sys.any" = true ∧ cpdEntity [] "@sys.any" = .ok "@sys.any" :=
  ⟨by decide, (builtin_entity_passthrough [] [] [] "f" "@sys.any" default
    default).1 (by decide)⟩

/-- Witness for the frame property on a concrete successful run. -/
theorem converters_preserve_originals_witness :
    ([⟨"n", "D", ⟨""⟩, [], [], [], []⟩,
      ⟨"n", "D", ⟨""⟩, [], [], [], []⟩] : List Page).take 1 =
        [⟨"n", "D", ⟨""⟩, [], [], [], []⟩] ∧
    (1 : Nat) ≤ 1 ∧
    ([⟨"n", "D", []⟩, ⟨"n", "D", []⟩] : List StartPage).take 1 =
      [⟨"n", "D", []⟩] := by
  have h := converters_preserve_originals "source" [] [] [] [] [] "f"
    [⟨"n", "D", ⟨""⟩, [], [], [], []⟩] [0]
    [⟨"n", "D", ⟨""⟩, [], [], [], []⟩, ⟨"n", "D", ⟨""⟩, [], [], [], []⟩] [1]
    [⟨"n", "D", []⟩] 0 [⟨"n", "D", []⟩, ⟨"n", "D", []⟩] 1
  obtain ⟨hA, hB⟩ := h.1 (by rfl)
  exact ⟨hA, hB 1 (by decide), (h.2 (by rfl)).1⟩

/-- Witness for the Start-Page rewriter characterisation. -/
theorem start_page_rewriter_spec_witness :
    cspSourceTarget [] "a/START_PAGE" = .ok "START_PAGE" ∧
    cspDestTarget "fB" [] "END_FLOW" = .ok ("fB" ++ "/pages/END_FLOW") ∧
    cspSourceTarget [("k", "V")] "k" = mget [("k", "V")] "k" ∧
    cspSourceTR [] [] [] ⟨"", "", "", ⟨""⟩⟩ =
      cpdSourceTR [] [] [] ⟨"", "", "", ⟨""⟩⟩ ∧
    (⟨"n", "D", []⟩ : StartPage).name = "n" := by
  refine ⟨?_, ?_, ?_, ?_, ?_⟩
  · exact (start_page_rewriter_spec [] [] [] "fB" "a/START_PAGE" default
      default default default).2.1 (by decide)
  · exact (start_page_rewriter_spec [] [] [] "fB" "x" default default default
      default).2.2.2.1
  · exact (start_page_rewriter_spec [] [] [("k", "V")] "fB" "k" default
      default default default).2.2.1 (by decide) (by decide)
  · exact (start_page_rewriter_spec [] [] [] "fB" "x" ⟨"", "", "", ⟨""⟩⟩
      default default default).2.2.2.2.2.2.1 rfl
  · exact ((start_page_rewriter_spec [] [] [] "f" "x" default ⟨"n", "D", []⟩
      ⟨"n", "D", []⟩ default).2.2.2.2.2.2.2.2.1 (by rfl)).1

/-- Witness for the unconditional intent lookup on condition routes. -/
theorem route_group_unconditional_intent_lookup_witness :
    cprTR [] [] [] [] [] [] "df" ⟨"", "c", "", ⟨""⟩⟩ = .error "" ∧
    cprRG [] [] [] [] [] [] "df" ⟨"rg", "RG", [⟨"", "c", "", ⟨""⟩⟩]⟩ =
      .error "" := by
  have h := route_group_unconditional_intent_lookup [] [] [] [] [] [] "df"
    ⟨"", "c", "", ⟨""⟩⟩ ⟨"rg", "RG", [⟨"", "c", "", ⟨""⟩⟩]⟩
  refine ⟨h.1 rfl rfl, ?_⟩
  obtain ⟨e, he⟩ := h.2 ⟨⟨"", "c", "", ⟨""⟩⟩, by decide, rfl⟩ rfl
  rfl

/-- Witness for the first-page flow derivation. -/
theorem page_dependencies_first_page_flow_witness :
    get_page_dependencies (fun _ => []) [] = none ∧
    get_page_dependencies (fun _ => [])
        [⟨"a/b", "X", ⟨""⟩, [], [], [], []⟩] =
      get_page_dependencies
        (fun s => if s = "other" then [⟨"r", "r", []⟩] else [])
        [⟨"a/b", "X", ⟨""⟩, [], [], [], []⟩] := by
  have h := page_dependencies_first_page_flow (fun _ => [])
    (fun s => if s = "other" then [⟨"r", "r", []⟩] else [])
    ⟨"a/b", "X", ⟨""⟩, [], [], [], []⟩ []
  exact ⟨h.1, h.2 (by decide)⟩
